import Mathlib

/-!
# Safetyres: emergency-dispatch front end

A shallow embedding of the business rules of the admin console:

* `src/pages/RequestsPage.jsx`: the snapshot listener that accepts every pending request and
  stamps a vehicle (`handleStatusUpdate`, the `onSnapshot` callback);
* `src/pages/AssignedVehicles.jsx`: the in-memory vehicle pool (`defaultVehicles`,
  `normalizeType`, `assignVehicle`, `deleteRequestRecord`), the countdown (`withCountdown`), the
  drivers offered to a request and `assignDriver`;
* `src/pages/Drivers.jsx`: `setAvailability`;
* `src/pages/DriverPortal.jsx`, `DriverLive.jsx`, `DriverUserLive.jsx`: the seconds since the
  last shared location;
* `src/pages/DriverPortal.jsx`: the automatic location updater, `setDutyStatus`, `saveProfile`
  and the split of the assignments into the current one and the history;
* `src/pages/AcceptedRequests.jsx`: the sort of a snapshot;
* `src/pages/Drivers.jsx`: `getDriverCode`;
* `src/pages/Contact.jsx`: the stars of a feedback card.

Documents of the external store are records of optional fields (`none` is a missing or `null`
field). A document write is not performed by the model: every operation returns the list of
store operations it issues, in order, together with the new local state.
-/

set_option autoImplicit false

namespace Safetyres

/-! ## JavaScript primitives -/

/-- ECMAScript `ToInt32` on an integral number; `x | 0` is `toInt32 x` once `x` is truncated. -/
def toInt32 (n : Int) : Int :=
  let m := n % 4294967296
  if m ≥ 2147483648 then m - 4294967296 else m

/-- The JavaScript `%` on integers: the remainder takes the sign of the dividend. -/
def jsRem (a b : Int) : Int := Int.tmod a b

/-- The method `String.prototype.toLowerCase` on one character. Only the characters whose lower-case form
contains an ASCII letter are mapped (`A`-`Z`, U+0130 and the Kelvin sign U+212A); every other
character is kept, since the keyword tests and `normalizeType` cannot tell a non-ASCII letter
from its lower-case form (the grouping of `getDriverCode` can: it is modelled for an arbitrary
lower-casing function). -/
def lowerChar (c : Char) : List Char :=
  if c = Char.ofNat 0x130 then ['i', Char.ofNat 0x307]
  else if c = Char.ofNat 0x212A then ['k']
  else [c.toLower]

/-- The call `s.toLowerCase()`. -/
def toLowerCase (s : String) : String := ⟨s.toList.flatMap lowerChar⟩

/-- Whether `xs` starts with `needle`. -/
def startsWith : List Char → List Char → Bool
  | _, [] => true
  | [], _ :: _ => false
  | x :: xs, n :: ns => x == n && startsWith xs ns

/-- Whether `needle` occurs in `xs` as a contiguous block. -/
def includesChars : List Char → List Char → Bool
  | [], needle => startsWith [] needle
  | x :: xs, needle => startsWith (x :: xs) needle || includesChars xs needle

/-- The call `s.includes(needle)`. -/
def includes (s needle : String) : Bool := includesChars s.toList needle.toList

/-- The expression `a || d` for a string-valued field `a`: a missing, `null` or empty field is falsy. -/
def orStr (a : Option String) (d : String) : String :=
  match a with
  | some s => if s = "" then d else s
  | none => d

/-- Truthiness of a string-valued field. -/
def truthy (a : Option String) : Bool :=
  match a with
  | some s => s != ""
  | none => false

/-- A JavaScript number. Every finite double is a whole number `m` divided by a power of two,
`finite m k` stands for `m / 2 ^ k`; arithmetic on finite numbers is exact. -/
inductive JsNumber where
  | nan
  | posInf
  | negInf
  | finite (m : Int) (k : Nat)
  deriving DecidableEq, Repr

/-- The abstract operation `ToIntegerOrInfinity`: NaN becomes 0 and a finite number is truncated
towards zero. -/
def JsNumber.toIntegerOrInfinity : JsNumber → JsNumber
  | JsNumber.nan => JsNumber.finite 0 0
  | JsNumber.posInf => JsNumber.posInf
  | JsNumber.negInf => JsNumber.negInf
  | JsNumber.finite m k => JsNumber.finite (Int.tdiv m (2 ^ k)) 0

/-- The method `String.prototype.repeat` on a one-character string: `none` is the `RangeError`
for a negative or infinite count. -/
def jsRepeat (c : Char) (count : JsNumber) : Option (List Char) :=
  match count.toIntegerOrInfinity with
  | JsNumber.finite n _ => if n < 0 then none else some (List.replicate n.toNat c)
  | _ => none

/-- A stored date text as `new Date(text).getTime()` reads it: a time value in milliseconds, or
an invalid date (NaN). -/
inductive DateText where
  | invalid
  | time (ms : Int)
  deriving DecidableEq, Repr

/-- Device coordinates. -/
structure Location where
  latitude : JsNumber
  longitude : JsNumber
  deriving DecidableEq, Repr

/-! ## Store operations -/

/-- The fields of an `updateDoc` on an `emergencyRequests` document; `none` means the field is
not part of the update. -/
structure RequestUpdate where
  status : Option String
  assignedVehicle : Option String
  assignedVehicleType : Option String
  /-- Whether `vehicleAssignedAt: serverTimestamp()` is part of the update. -/
  vehicleAssignedAt : Bool
  assignedDriverId : Option String
  /-- The value `some none` writes `null`. -/
  assignedDriverEmail : Option (Option String)
  deriving DecidableEq, Repr

/-- The fields of an `updateDoc` on a `drivers` document; `none` means the field is not part
of the update. -/
structure DriverUpdate where
  available : Option Bool
  /-- The value `some none` writes `null`. -/
  assignedVehicle : Option (Option String)
  status : Option String := none
  liveShare : Option Bool := none
  location : Option Location := none
  lastSharedAt : Option DateText := none
  name : Option String := none
  phone : Option String := none
  vehicleType : Option String := none
  deriving DecidableEq, Repr

/-- A call issued to the document store. -/
inductive StoreOp where
  | updateRequest (id : String) (u : RequestUpdate)
  | updateDriver (id : String) (u : DriverUpdate)
  | deleteRequest (id : String)
  deriving DecidableEq, Repr

/-! ## RequestsPage.jsx -/

/-- The fields of an `emergencyRequests` document that the pages read. Timestamps are Firestore
timestamps, given in whole seconds. -/
structure RequestData where
  name : Option String
  phone : Option String
  situation : Option String
  vehicle : Option String
  vehicleType : Option String
  status : Option String
  timestamp : Option Nat
  assignedVehicle : Option String
  assignedVehicleType : Option String
  vehicleAssignedAt : Option Nat
  assignedDriverId : Option String
  deriving DecidableEq, Repr

/-- One document of a snapshot: `doc.id` and `doc.data()`. -/
structure SnapshotDoc where
  id : String
  data : RequestData
  deriving DecidableEq, Repr

/-- The record the requests page keeps for a document (the object built in `snapshot.docs.map`);
`timestamp` is `data.timestamp.toDate()` in milliseconds. The coordinates are display-only and
left out. -/
structure LocalRequest where
  id : String
  name : String
  phone : String
  situation : String
  status : String
  timestamp : Option Nat
  deriving DecidableEq, Repr

/-- The mapping of `snapshot.docs.map` in the `onSnapshot` callback. -/
def mapDoc (d : SnapshotDoc) : LocalRequest :=
  { id := d.id
    name := orStr d.data.name ""
    phone := orStr d.data.phone ""
    situation := orStr d.data.situation (orStr d.data.vehicle "")
    status := orStr d.data.status "Pending"
    timestamp := d.data.timestamp.map fun s => s * 1000 }

/-- The request list of the first render, `useState([])`. -/
def initialRequests : List LocalRequest := []

/-- The text `(current?.situation || current?.vehicle || "").toLowerCase()` with
`current = requests.find((r) => r.id === reqId)`; a local record has no `vehicle` field. -/
def typeSrc (requests : List LocalRequest) (reqId : String) : String :=
  toLowerCase
    (match requests.find? fun r => r.id == reqId with
     | some current => orStr (some current.situation) ""
     | none => "")

/-- The keyword match of `handleStatusUpdate`. -/
def vehicleTypeOf (src : String) : String :=
  if includes src "fire" then "fireengine"
  else if includes src "police" || includes src "crime" then "policevan"
  else "ambulance"

/-- The slot `((Date.now() / 60000) | 0) % poolSize` with `poolSize = 10`; `now` is `Date.now()`, the
milliseconds elapsed since the epoch. -/
def slot (now : Nat) : Int := jsRem (toInt32 ((now / 60000 : Nat) : Int)) 10

/-- The label in front of the unit number in a vehicle identifier. -/
def unitLabel (vehicleType : String) : String :=
  if vehicleType = "ambulance" then "Ambulance-"
  else if vehicleType = "fireengine" then "FireEngine-"
  else "PoliceVan-"

/-- The template strings of `handleStatusUpdate`, for a unit number `n`. -/
def vehicleId (vehicleType : String) (n : Int) : String := unitLabel vehicleType ++ toString n

/-- The object passed to `updateDoc` by `handleStatusUpdate`: `{ status: newStatus,
...extraUpdate }`. `requests` is the request list captured by the closure. -/
def statusUpdate (requests : List LocalRequest) (reqId newStatus : String) (now : Nat) :
    RequestUpdate :=
  if newStatus = "Accepted" then
    let vehicleType := vehicleTypeOf (typeSrc requests reqId)
    { status := some newStatus
      assignedVehicle := some (vehicleId vehicleType (slot now + 1))
      assignedVehicleType := some vehicleType
      vehicleAssignedAt := true
      assignedDriverId := none
      assignedDriverEmail := none }
  else
    { status := some newStatus
      assignedVehicle := none
      assignedVehicleType := none
      vehicleAssignedAt := false
      assignedDriverId := none
      assignedDriverEmail := none }

/-- What one call of `handleStatusUpdate` does: the write it issues and the request list after
it. -/
structure StatusUpdateResult where
  write : StoreOp
  requests : List LocalRequest
  deriving DecidableEq, Repr

/-- The function `handleStatusUpdate(reqId, newStatus)`. `requests` is the list captured by the
closure, `prev` the list that `setRequests` updates, `now` the reading of `Date.now()` and
`writeOk` tells whether the store accepts the write. A rejected write is caught and logged: the
list is then left as it is. -/
def handleStatusUpdate (requests : List LocalRequest) (reqId newStatus : String) (now : Nat)
    (writeOk : Bool) (prev : List LocalRequest) : StatusUpdateResult :=
  { write := StoreOp.updateRequest reqId (statusUpdate requests reqId newStatus now)
    requests :=
      if writeOk then prev.map fun r => if r.id = reqId then { r with status := newStatus } else r
      else prev }

/-- The loop `for (const req of allReq)` of the `onSnapshot` callback: the writes issued for the
pending records, in order. The `k`-th call of `handleStatusUpdate` reads the clock as `clock k`
and its write is accepted when `writeOk k` holds. -/
def acceptPending (requests : List LocalRequest) (clock : Nat → Nat) (writeOk : Nat → Bool) :
    Nat → List LocalRequest → List LocalRequest → List StoreOp × List LocalRequest
  | _, [], prev => ([], prev)
  | k, req :: rest, prev =>
    if req.status = "Pending" then
      let r := handleStatusUpdate requests req.id "Accepted" (clock k) (writeOk k) prev
      let out := acceptPending requests clock writeOk (k + 1) rest r.requests
      (r.write :: out.1, out.2)
    else acceptPending requests clock writeOk k rest prev

/-- The result of one change notification. -/
structure SnapshotResult where
  writes : List StoreOp
  requests : List LocalRequest
  deriving DecidableEq, Repr

/-- The `onSnapshot` callback of the requests page for the documents `docs`, with `requests` the
list captured by `handleStatusUpdate`. After the loop the list is replaced by the records of the
last hour (`endNow` is the reading of `Date.now()` for `oneHourAgo`). -/
def onSnapshotWith (requests : List LocalRequest) (clock : Nat → Nat) (writeOk : Nat → Bool)
    (endNow : Nat) (docs : List SnapshotDoc) (prev : List LocalRequest) : SnapshotResult :=
  let allReq := docs.map mapDoc
  let out := acceptPending requests clock writeOk 0 allReq prev
  { writes := out.1
    requests := allReq.filter fun r =>
      match r.timestamp with
      | some t => decide ((endNow : Int) - 3600000 ≤ (t : Int))
      | none => false }

/-- The listener as the page registers it. The effect has an empty dependency list, so it runs
once, after the first render, and the callback keeps the `handleStatusUpdate` of that render,
whose `requests` is the initial list. -/
def onSnapshot (clock : Nat → Nat) (writeOk : Nat → Bool) (endNow : Nat)
    (docs : List SnapshotDoc) (prev : List LocalRequest) : SnapshotResult :=
  onSnapshotWith initialRequests clock writeOk endNow docs prev

/-! ## AssignedVehicles.jsx -/

/-- One unit of the vehicle pool. -/
structure Vehicle where
  id : String
  available : Bool
  deriving DecidableEq, Repr

/-- The `vehicles` state: the units of each class, by the key of the class (`none` when the
object has no such key). Keys inherited from `Object.prototype` are not modelled; the only one
that `normalizeType` can produce is `constructor`, for which `assignVehicle` throws before it
changes the pool or issues a write. -/
abbrev Pool := String → Option (List Vehicle)

/-- The expression `Array.from({ length: 10 }, (_, i) => ({ id: label + (i + 1), available:
true }))`. -/
def unitsOf (label : String) : List Vehicle :=
  (List.range 10).map fun i => { id := label ++ toString (i + 1), available := true }

/-- The constant `defaultVehicles`. -/
def defaultVehicles : Pool := fun key =>
  if key = "ambulance" then some (unitsOf "Ambulance-")
  else if key = "fireengine" then some (unitsOf "FireEngine-")
  else if key = "policevan" then some (unitsOf "PoliceVan-")
  else none

/-- The helper `normalizeType(raw)`: `""` for a missing value, otherwise the lower-cased text
without the characters outside `a-z0-9`. -/
def normalizeType (raw : Option String) : String :=
  match raw with
  | none => ""
  | some s => ⟨(toLowerCase s).toList.filter fun c => c.isLower || c.isDigit⟩

/-- A row of the board: a request document with the fields that `withCountdown` adds. -/
structure RequestRow where
  id : String
  data : RequestData
  remainingMs : Option Int
  resolvedVehicleType : Option String
  deriving DecidableEq, Repr

/-- The mapping inside `withCountdown`, for the clock reading `now`. -/
def withCountdown (now : Nat) (r : SnapshotDoc) : RequestRow :=
  let assignedMs : Option Nat :=
    match r.data.vehicleAssignedAt with
    | some seconds => if seconds = 0 then none else some (seconds * 1000)
    | none => none
  let rawType := orStr r.data.assignedVehicleType (orStr r.data.vehicleType (orStr r.data.vehicle ""))
  { id := r.id
    data := r.data
    remainingMs :=
      match assignedMs with
      | some ms => if ms = 0 then none else some (max 0 ((ms : Int) + 600000 - (now : Int)))
      | none => none
    resolvedVehicleType := some (orStr (some (normalizeType (some rawType))) "ambulance") }

/-- The class that `assignVehicle` draws from: `normalizeType(request.resolvedVehicleType ||
request.vehicleType || request.vehicle || "") || "ambulance"`. -/
def requestedType (request : RequestRow) : String :=
  let rawType :=
    orStr request.resolvedVehicleType (orStr request.data.vehicleType (orStr request.data.vehicle ""))
  orStr (some (normalizeType (some rawType))) "ambulance"

/-- What an operation of the board does: the pool after it, the store operations it issues, in
order, the notice it shows and the lines it logs to the console. -/
structure BoardResult where
  vehicles : Pool
  writes : List StoreOp
  alert : Option String
  log : List String

/-- The function `assignVehicle(request)` on the pool `vehicles`; `writeOk` tells whether the
store accepts the write. The pool is updated before the write and is not restored when the
write is rejected. -/
def assignVehicle (vehicles : Pool) (request : RequestRow) (writeOk : Bool) : BoardResult :=
  let type := requestedType request
  match (vehicles type).bind fun units => units.find? fun v => v.available with
  | none =>
    { vehicles := vehicles
      writes := []
      alert := some ("No " ++ type ++ " available now")
      log := [] }
  | some availableVehicle =>
    { vehicles := fun key =>
        if key = type then
          (vehicles type).map fun units =>
            units.map fun v => if v.id = availableVehicle.id then { v with available := false } else v
        else vehicles key
      writes :=
        [StoreOp.updateRequest request.id
          { status := some "assigned"
            assignedVehicle := some availableVehicle.id
            assignedVehicleType := some type
            vehicleAssignedAt := true
            assignedDriverId := none
            assignedDriverEmail := none }]
      alert := if writeOk then none else some "Failed to assign vehicle. Check console."
      log := if writeOk then [] else ["assignVehicle error:"] }

/-- The function `deleteRequestRecord(request)` on the pool `vehicles`. `confirmDelete` is the
answer to `window.confirm`; `driverOk` and `deleteOk` tell whether the store accepts the write
that releases the driver and the deletion. A rejected release is logged and the deletion goes
on. -/
def deleteRequestRecord (vehicles : Pool) (request : RequestRow)
    (confirmDelete driverOk deleteOk : Bool) : BoardResult :=
  if confirmDelete then
    let release : List StoreOp :=
      match request.data.assignedDriverId with
      | some driverId =>
        if driverId = "" then []
        else [StoreOp.updateDriver driverId { available := some true, assignedVehicle := some none }]
      | none => []
    let assignedTypeRaw :=
      orStr request.data.assignedVehicleType
        (orStr request.data.vehicle (orStr request.data.vehicleType ""))
    let assignedType := normalizeType (some assignedTypeRaw)
    { vehicles :=
        match request.data.assignedVehicle with
        | some assignedVehicleId =>
          if assignedType = "" ∨ assignedVehicleId = "" then vehicles
          else fun key =>
            if key = assignedType then
              some (((vehicles assignedType).getD []).map fun v =>
                if v.id = assignedVehicleId then { v with available := true } else v)
            else vehicles key
        | none => vehicles
      writes := release ++ [StoreOp.deleteRequest request.id]
      alert :=
        some (if deleteOk then "Request deleted successfully."
          else "Failed to delete request. See console for details.")
      log :=
        (if release ≠ [] ∧ driverOk = false then ["Failed to release driver:"] else []) ++
          (if deleteOk then [] else ["deleteRequestRecord error:"]) }
  else { vehicles := vehicles, writes := [], alert := none, log := [] }

/-- The pool states of a session: `vehicles` starts as `defaultVehicles` and is only changed by
`assignVehicle` and `deleteRequestRecord`. -/
inductive Reachable : Pool → Prop where
  | default : Reachable defaultVehicles
  | assign (vehicles : Pool) (request : RequestRow) (writeOk : Bool) :
      Reachable vehicles → Reachable (assignVehicle vehicles request writeOk).vehicles
  | delete (vehicles : Pool) (request : RequestRow) (confirmDelete driverOk deleteOk : Bool) :
      Reachable vehicles →
      Reachable (deleteRequestRecord vehicles request confirmDelete driverOk deleteOk).vehicles

/-- The identifiers of the units of a class, in pool order. -/
def unitIds (vehicles : Pool) (key : String) : List String :=
  ((vehicles key).getD []).map Vehicle.id

/-! ## Drivers -/

/-- A `drivers` document with its id: the fields written at registration and by the driver
portal, and `assignedVehicleType`, which the board reads. -/
structure DriverDoc where
  id : String
  uid : Option String
  name : Option String
  email : Option String
  phone : Option String
  vehicleType : Option String
  assignedVehicleType : Option String
  available : Option Bool
  status : Option String
  assignedVehicle : Option String
  location : Option Location
  createdAt : Option String
  liveShare : Option Bool
  lastSharedAt : Option DateText
  deriving DecidableEq, Repr

/-- The effect of an accepted `updateDoc` on a driver document: the fields of the update
replace those of the document, the other fields stay. -/
def applyDriverUpdate (u : DriverUpdate) (d : DriverDoc) : DriverDoc :=
  { id := d.id
    uid := d.uid
    name := match u.name with | some v => some v | none => d.name
    email := d.email
    phone := match u.phone with | some v => some v | none => d.phone
    vehicleType := match u.vehicleType with | some v => some v | none => d.vehicleType
    assignedVehicleType := d.assignedVehicleType
    available := match u.available with | some v => some v | none => d.available
    status := match u.status with | some v => some v | none => d.status
    assignedVehicle := match u.assignedVehicle with | some v => v | none => d.assignedVehicle
    location := match u.location with | some v => some v | none => d.location
    createdAt := d.createdAt
    liveShare := match u.liveShare with | some v => some v | none => d.liveShare
    lastSharedAt := match u.lastSharedAt with | some v => some v | none => d.lastSharedAt }

/-- The effect of an accepted `updateDoc` on a request document, for the fields that the pages
read; `serverTime` is the value the store gives to `serverTimestamp()`, in seconds. -/
def applyRequestUpdate (serverTime : Nat) (u : RequestUpdate) (d : RequestData) : RequestData :=
  { d with
    status := match u.status with | some v => some v | none => d.status
    assignedVehicle := match u.assignedVehicle with | some v => some v | none => d.assignedVehicle
    assignedVehicleType :=
      match u.assignedVehicleType with | some v => some v | none => d.assignedVehicleType
    vehicleAssignedAt := if u.vehicleAssignedAt then some serverTime else d.vehicleAssignedAt
    assignedDriverId :=
      match u.assignedDriverId with | some v => some v | none => d.assignedDriverId }

/-- The two collections of the document store that the board works on. -/
structure Store where
  requests : List SnapshotDoc
  drivers : List DriverDoc
  deriving DecidableEq, Repr

/-- The store after it has accepted one operation. -/
def Store.apply (serverTime : Nat) (store : Store) : StoreOp → Store
  | StoreOp.updateRequest id u =>
    { store with
      requests := store.requests.map fun r =>
        if r.id = id then { r with data := applyRequestUpdate serverTime u r.data } else r }
  | StoreOp.updateDriver id u =>
    { store with
      drivers := store.drivers.map fun d => if d.id = id then applyDriverUpdate u d else d }
  | StoreOp.deleteRequest id =>
    { store with requests := store.requests.filter fun r => r.id != id }

/-- The store after it has accepted the operations `ops`, in order. -/
def Store.applyAll (serverTime : Nat) (store : Store) (ops : List StoreOp) : Store :=
  ops.foldl (Store.apply serverTime) store

/-- The function `setAvailability(driverId, available)` of the drivers page: the write it
issues. -/
def setAvailability (driverId : String) (available : Bool) : List StoreOp :=
  [StoreOp.updateDriver driverId { available := some available, assignedVehicle := none }]

/-- The list `eligible` of the driver dropdown of a row: `needed` is `req.resolvedVehicleType ||
normalizeType(req.vehicle || "")`, and a driver is kept when `d.available !== false` and
`normalizeType(d.vehicleType || d.assignedVehicleType || "") === needed`. -/
def eligibleDrivers (drivers : List DriverDoc) (req : RequestRow) : List DriverDoc :=
  let needed := orStr req.resolvedVehicleType (normalizeType (some (orStr req.data.vehicle "")))
  drivers.filter fun d =>
    d.available != some false &&
      normalizeType (some (orStr d.vehicleType (orStr d.assignedVehicleType ""))) == needed

/-- The drivers offered for binding in the driver cell of a row: the dropdown is rendered only
when the row has no `assignedDriverId`. The board has such a cell for the rows of `boardRows`
below, which come from the requests with status "Accepted" or "assigned". -/
def offeredDrivers (drivers : List DriverDoc) (req : RequestRow) : List DriverDoc :=
  if truthy req.data.assignedDriverId then [] else eligibleDrivers drivers req

/-- What `assignDriver` does: the store operations it issues, in order, those of them that the
store accepted, the notice it shows and the lines it logs to the console. -/
structure AssignDriverResult where
  writes : List StoreOp
  accepted : List StoreOp
  alert : String
  log : List String
  deriving DecidableEq, Repr

/-- The function `assignDriver(requestId, driverId)` with the loaded lists `drivers` and
`requests`; `requestOk` and `driverOk` tell whether the store accepts the write to the request
and the write to the driver. The first rejected write ends the function in its `catch`. -/
def assignDriver (drivers : List DriverDoc) (requests : List SnapshotDoc)
    (requestId driverId : String) (requestOk driverOk : Bool) : AssignDriverResult :=
  match drivers.find? fun d => d.id == driverId with
  | none => { writes := [], accepted := [], alert := "Driver not found", log := [] }
  | some driver =>
    match requests.find? fun r => r.id == requestId with
    | none => { writes := [], accepted := [], alert := "Request not found", log := [] }
    | some request =>
      let requestWrite :=
        StoreOp.updateRequest requestId
          { status := none
            assignedVehicle := none
            assignedVehicleType := none
            vehicleAssignedAt := false
            assignedDriverId := some driverId
            assignedDriverEmail := some (if truthy driver.email then driver.email else none) }
      let driverWrite :=
        StoreOp.updateDriver driverId
          { assignedVehicle :=
              some (if truthy request.data.assignedVehicle then request.data.assignedVehicle
                else none)
            available := some false }
      if requestOk then
        if driverOk then
          { writes := [requestWrite, driverWrite]
            accepted := [requestWrite, driverWrite]
            alert := "Driver assigned successfully."
            log := [] }
        else
          { writes := [requestWrite, driverWrite]
            accepted := [requestWrite]
            alert := "Failed to assign driver. See console for details."
            log := ["assignDriver error:"] }
      else
        { writes := [requestWrite]
          accepted := []
          alert := "Failed to assign driver. See console for details."
          log := ["assignDriver error:"] }

/-! ## Seconds since the last shared location -/

/-- The value `lastUpdatedSeconds` of the driver portal: `null` (`none`) without a
`lastSharedAt` or when it is not a date, otherwise `Math.floor((Date.now() - ms) / 1000)`. -/
def lastUpdatedSeconds (lastSharedAt : Option DateText) (now : Nat) : Option Int :=
  match lastSharedAt with
  | none => none
  | some DateText.invalid => none
  | some (DateText.time ms) => some (((now : Int) - ms) / 1000)

/-- The value `lastUpdatedSec` of the two live-tracking pages: `null` (`none`) without a
`lastSharedAt`, NaN (`some none`) when it is not a date, otherwise
`Math.floor((Date.now() - ms) / 1000)`. -/
def lastUpdatedSec (lastSharedAt : Option DateText) (now : Nat) : Option (Option Int) :=
  match lastSharedAt with
  | none => none
  | some DateText.invalid => some none
  | some (DateText.time ms) => some (some (((now : Int) - ms) / 1000))

/-! ## DriverPortal.jsx -/

/-- The `driver` state of the portal, for the fields that the logic reads; `none` is
`undefined`. -/
structure PortalDriver where
  status : Option String
  liveShare : Option Bool
  lastSharedAt : Option DateText
  deriving DecidableEq, Repr

/-- The value passed to `setNotification`. -/
structure Notice where
  title : String
  message : String
  type : String
  deriving DecidableEq, Repr

/-- The `profileForm` state. -/
structure ProfileForm where
  name : String
  phone : String
  vehicleType : String
  deriving DecidableEq, Repr

/-- The local state of the portal that the actions below read or set. -/
structure PortalState where
  driver : Option PortalDriver
  driverDocId : Option String
  profileForm : ProfileForm
  notification : Option Notice
  deriving DecidableEq, Repr

/-- What an action of the portal does: the state after it, the store operations it issues and
the lines it logs to the console. -/
structure PortalResult where
  state : PortalState
  writes : List StoreOp
  log : List String
  deriving DecidableEq, Repr

/-- The function `setDutyStatus(newStatus)`; `writeOk` tells whether the store accepts the
write. -/
def setDutyStatus (s : PortalState) (newStatus : String) (writeOk : Bool) : PortalResult :=
  if truthy s.driverDocId then
    let write :=
      StoreOp.updateDriver (orStr s.driverDocId "")
        { available := none, assignedVehicle := none, status := some newStatus }
    if writeOk then
      { state :=
          { s with
            driver :=
              some
                (match s.driver with
                 | some p => { p with status := some newStatus }
                 | none => { status := some newStatus, liveShare := none, lastSharedAt := none })
            notification :=
              some ⟨"Status Updated", "You are now " ++ newStatus, "success"⟩ }
        writes := [write]
        log := [] }
    else
      { state := { s with notification := some ⟨"Error", "Failed to update status", "error"⟩ }
        writes := [write]
        log := ["status update error"] }
  else
    { state := { s with notification := some ⟨"Error", "Driver record not loaded yet.", "error"⟩ }
      writes := []
      log := [] }

/-- The function `saveProfile()`; `writeOk` tells whether the store accepts the write. -/
def saveProfile (s : PortalState) (writeOk : Bool) : PortalResult :=
  if truthy s.driverDocId then
    let write :=
      StoreOp.updateDriver (orStr s.driverDocId "")
        { available := none
          assignedVehicle := none
          name := some s.profileForm.name
          phone := some s.profileForm.phone
          vehicleType := some s.profileForm.vehicleType }
    if writeOk then
      { state := { s with notification := some ⟨"Success", "Profile updated", "success"⟩ }
        writes := [write]
        log := [] }
    else
      { state := { s with notification := some ⟨"Error", "Failed to save profile", "error"⟩ }
        writes := [write]
        log := ["saveProfile error"] }
  else
    { state := { s with notification := some ⟨"Error", "Driver record not loaded yet.", "error"⟩ }
      writes := []
      log := [] }

/-- The answer of `navigator.geolocation` to one `getCurrentPosition`: the browser has no
geolocation, the request fails, or it delivers coordinates. -/
inductive Geolocation where
  | unsupported
  | failure
  | position (coords : Location)
  deriving DecidableEq, Repr

/-- One run of `updater`, the immediate one or a tick of the interval, in the effect that was
set up for the state `s` (the effect is set up again whenever `driverDocId`, `driver?.liveShare`
or `driver?.status` changes, and sets up nothing without a `driverDocId`). `stoppedAtRun` and
`stoppedAtPosition` are the flag `stopped` when `updater` starts and when the position arrives,
`now` is the time of `new Date()` and `writeOk` tells whether the store accepts the write. -/
def updater (s : PortalState) (stoppedAtRun stoppedAtPosition : Bool) (geolocation : Geolocation)
    (now : Int) (writeOk : Bool) : PortalResult :=
  let idle : PortalResult := { state := s, writes := [], log := [] }
  if !truthy s.driverDocId then idle
  else if stoppedAtRun then idle
  else if (s.driver.bind fun d => d.liveShare) != some true then idle
  else if (s.driver.bind fun d => d.status) != some "active" then idle
  else
    match geolocation with
    | Geolocation.unsupported => idle
    | Geolocation.failure => idle
    | Geolocation.position coords =>
      if stoppedAtPosition then idle
      else
        { state := s
          writes :=
            [StoreOp.updateDriver (orStr s.driverDocId "")
              { available := none
                assignedVehicle := none
                location := some coords
                lastSharedAt := some (DateText.time now) }]
          log := if writeOk then [] else ["auto update location error:"] }

/-! ## Sorting -/

/-- One step of the sort: the next element `x` is placed into the part sorted so far, which is
given last element first; `x` moves in front of the elements that `compare` puts after it. -/
def insertFromRight {α : Type} (compare : α → α → Int) (x : α) : List α → List α
  | [] => [x]
  | y :: front =>
    if compare y x > 0 then y :: insertFromRight compare x front else x :: y :: front

/-- The method `Array.prototype.sort(compare)`, as a stable insertion sort. For a consistent
comparator every stable sort gives this list. ECMAScript leaves the order to the engine when the
comparator is not consistent; on the list evaluated below every comparison of neighbours is 0,
and V8 takes such an array for one sorted run and leaves it as it is, as this sort does. -/
def jsSort {α : Type} (compare : α → α → Int) (l : List α) : List α :=
  (l.foldl (fun sorted x => insertFromRight compare x sorted) []).reverse

/-! ## AssignedVehicles.jsx: the rows of the board -/

/-- The comparator of the snapshot sort of the board: `(b.timestamp?.seconds || 0) -
(a.timestamp?.seconds || 0)`. -/
def compareBoard (a b : SnapshotDoc) : Int :=
  ((b.data.timestamp.getD 0 : Nat) : Int) - ((a.data.timestamp.getD 0 : Nat) : Int)

/-- The list that the `onSnapshot` callback of the board stores in `requests` for the documents
`docs`: the documents are sorted with `compareBoard`, and those whose status is "Accepted" or
"assigned" are kept. -/
def boardRequests (docs : List SnapshotDoc) : List SnapshotDoc :=
  (jsSort compareBoard docs).filter fun r =>
    r.data.status == some "Accepted" || r.data.status == some "assigned"

/-- The list `filteredData` for the search text `search` and the vehicle filter `vehicleFilter`
(initially "" and "All"): the rows that match both. -/
def filteredData (search vehicleFilter : String) (rows : List RequestRow) : List RequestRow :=
  rows.filter fun req =>
    let matchesSearch :=
      (match req.data.name with
        | some name => includes (toLowerCase name) (toLowerCase search)
        | none => false) ||
        includes (toLowerCase (orStr req.data.situation "")) (toLowerCase search) ||
        includes (toLowerCase (orStr req.data.phone "")) (toLowerCase search)
    let matchesVehicle :=
      vehicleFilter == "All" ||
        normalizeType (some (orStr req.resolvedVehicleType (orStr req.data.vehicle ""))) ==
          normalizeType (some vehicleFilter)
    matchesSearch && matchesVehicle

/-- The rows that the board renders at the clock reading `now` for the documents `docs` of the
snapshot: `filteredData`, taken from the list `withCountdown` of the stored requests. Only these
rows have a driver cell, so only for them is `offeredDrivers` shown. -/
def boardRows (now : Nat) (search vehicleFilter : String) (docs : List SnapshotDoc) :
    List RequestRow :=
  filteredData search vehicleFilter ((boardRequests docs).map (withCountdown now))

/-! ## AcceptedRequests.jsx -/

/-- The comparator of the snapshot sort: 0 when `a` or `b` has no timestamp, otherwise
`b.timestampObj.seconds - a.timestampObj.seconds`. -/
def compareNewestFirst (a b : SnapshotDoc) : Int :=
  match a.data.timestamp, b.data.timestamp with
  | some x, some y => (y : Int) - (x : Int)
  | _, _ => 0

/-- The list that the `onSnapshot` callback of the accepted-requests page stores for the
documents `docs`. -/
def acceptedRequests (docs : List SnapshotDoc) : List SnapshotDoc :=
  jsSort compareNewestFirst docs

/-! ## Current assignment and history -/

/-- The value `assignedMs` of the portal for a request whose `vehicleAssignedAt` is a Firestore
timestamp: `seconds * 1000`, and for 0 seconds `Date.parse` of the timestamp object, NaN
(`none`). -/
def assignedMs (r : SnapshotDoc) : Option Nat :=
  match r.data.vehicleAssignedAt with
  | some seconds => if seconds = 0 then none else some (seconds * 1000)
  | none => none

/-- The value `active`: `assignedMs ? now - assignedMs < 10 * 60 * 1000 : false`. -/
def assignmentActive (now : Nat) (r : SnapshotDoc) : Bool :=
  match assignedMs r with
  | some ms => if ms = 0 then false else decide ((now : Int) - (ms : Int) < 600000)
  | none => false

/-- The comparator of the history sort: `(b.vehicleAssignedAt?.seconds ?? 0) -
(a.vehicleAssignedAt?.seconds ?? 0)`. -/
def compareHistory (a b : SnapshotDoc) : Int :=
  ((b.data.vehicleAssignedAt.getD 0 : Nat) : Int) - ((a.data.vehicleAssignedAt.getD 0 : Nat) : Int)

/-- The pair `{ currentAssignment, historyAssignments }`. -/
structure Assignments where
  currentAssignment : Option SnapshotDoc
  historyAssignments : List SnapshotDoc
  deriving DecidableEq, Repr

/-- The body of the loop `for (const r of allAssignments)`, on the pair of `current` and
`history`. -/
def splitStep (now : Nat) (acc : Option SnapshotDoc × List SnapshotDoc) (r : SnapshotDoc) :
    Option SnapshotDoc × List SnapshotDoc :=
  if r.data.status = some "assigned" ∧ assignmentActive now r = true ∧ acc.1 = none then
    (some r, acc.2)
  else (acc.1, acc.2 ++ [r])

/-- The memo that splits `allAssignments` into the current assignment and the history, for the
clock reading `now`. -/
def splitAssignments (now : Nat) (allAssignments : List SnapshotDoc) : Assignments :=
  let out := allAssignments.foldl (splitStep now) (none, [])
  { currentAssignment := out.1
    historyAssignments := jsSort compareHistory out.2 }

/-! ## Driver codes -/

/-- The method `Array.prototype.findIndex`: -1 when no element passes the test. -/
def findIndex {α : Type} (p : α → Bool) : List α → Int
  | [] => -1
  | x :: rest => if p x then 0 else if findIndex p rest < 0 then -1 else findIndex p rest + 1

/-- The function `getDriverCode(driver, all)` for the lower-casing function `lower`. -/
def getDriverCodeWith (lower : String → String) (driver : DriverDoc) (all : List DriverDoc) :
    String :=
  let type := lower (orStr driver.vehicleType "")
  let group := all.filter fun d => lower (orStr d.vehicleType "") == type
  let index := findIndex (fun d => d.id == driver.id) group
  if type = "ambulance" then "AMD" ++ toString (index + 1)
  else if type = "policevan" then "POD" ++ toString (index + 1)
  else if type = "fireengine" then "FIR" ++ toString (index + 1)
  else "DRV" ++ toString (index + 1)

/-- The function `getDriverCode(driver, all)` of the drivers page. -/
def getDriverCode (driver : DriverDoc) (all : List DriverDoc) : String :=
  getDriverCodeWith toLowerCase driver all

/-! ## Contact.jsx -/

/-- The expression `Number(f.rating) || 0`: a missing rating is NaN, and NaN and 0 are falsy. -/
def ratingOrZero (rating : Option JsNumber) : JsNumber :=
  match rating with
  | none => JsNumber.finite 0 0
  | some JsNumber.nan => JsNumber.finite 0 0
  | some (JsNumber.finite m k) => if m = 0 then JsNumber.finite 0 0 else JsNumber.finite m k
  | some x => x

/-- The call `Math.min(5, x)`. -/
def mathMin5 : JsNumber → JsNumber
  | JsNumber.nan => JsNumber.nan
  | JsNumber.posInf => JsNumber.finite 5 0
  | JsNumber.negInf => JsNumber.negInf
  | JsNumber.finite m k => if 5 * 2 ^ k ≤ m then JsNumber.finite 5 0 else JsNumber.finite m k

/-- The call `Math.max(0, x)`. -/
def mathMax0 : JsNumber → JsNumber
  | JsNumber.nan => JsNumber.nan
  | JsNumber.posInf => JsNumber.posInf
  | JsNumber.negInf => JsNumber.finite 0 0
  | JsNumber.finite m k => if m ≤ 0 then JsNumber.finite 0 0 else JsNumber.finite m k

/-- The expression `5 - x`, computed exactly. In double precision the difference is exact too
when `x` is a whole number between 0 and 5 or has few binary digits, as in every evaluation
below. -/
def fiveMinus : JsNumber → JsNumber
  | JsNumber.nan => JsNumber.nan
  | JsNumber.posInf => JsNumber.negInf
  | JsNumber.negInf => JsNumber.posInf
  | JsNumber.finite m k => JsNumber.finite (5 * 2 ^ k - m) k

/-- The expression `Math.max(0, Math.min(5, Number(f.rating) || 0))`. -/
def clampRating (rating : Option JsNumber) : JsNumber :=
  mathMax0 (mathMin5 (ratingOrZero rating))

/-- The text of the star line of a feedback card: the filled stars followed by the unfilled
ones; `none` if a `repeat` throws. -/
def stars (rating : Option JsNumber) : Option String :=
  match jsRepeat '★' (clampRating rating), jsRepeat '☆' (fiveMinus (clampRating rating)) with
  | some filled, some unfilled => some ⟨filled ++ unfilled⟩
  | _, _ => none

/-- The number min(5, max(0, r)) of the specification for a stored rating `r`, a missing rating
or NaN counting as 0. -/
def clampedRating : Option JsNumber → ℚ
  | none => 0
  | some JsNumber.nan => 0
  | some JsNumber.posInf => 5
  | some JsNumber.negInf => 0
  | some (JsNumber.finite m k) => min 5 (max 0 ((m : ℚ) / 2 ^ k))

/-- The fields of a driver update other than `available` and `assignedVehicle` are all absent. -/
def DriverUpdate.onlyAvailabilityAndVehicle (u : DriverUpdate) : Prop :=
  u.status = none ∧ u.liveShare = none ∧ u.location = none ∧ u.lastSharedAt = none ∧
    u.name = none ∧ u.phone = none ∧ u.vehicleType = none

/-- The letters in front of the number in a driver code, by lower-cased vehicle type. -/
def driverCodeLabel (type : String) : String :=
  if type = "ambulance" then "AMD"
  else if type = "policevan" then "POD"
  else if type = "fireengine" then "FIR"
  else "DRV"

/-- The value of a list of decimal digits that continues the number `start`. -/
def decodeDigits (l : List Char) (start : Nat) : Nat :=
  l.foldl (fun a c => 10 * a + (c.toNat - 48)) start

/-! ## Inputs used by the evaluations below -/

/-- A request as the intake form leaves it: a name, a phone number and a situation, with status
"Pending" and no vehicle yet. -/
def pendingDoc (id situation : String) : SnapshotDoc :=
  { id := id
    data :=
      { name := some "Asha"
        phone := some "5550100"
        situation := some situation
        vehicle := none
        vehicleType := none
        status := some "Pending"
        timestamp := some 1700000000
        assignedVehicle := none
        assignedVehicleType := none
        vehicleAssignedAt := none
        assignedDriverId := none } }

/-- The update that accepts a request with the given vehicle. -/
def acceptedWith (vehicle vehicleType : String) : RequestUpdate :=
  { status := some "Accepted"
    assignedVehicle := some vehicle
    assignedVehicleType := some vehicleType
    vehicleAssignedAt := true
    assignedDriverId := none
    assignedDriverEmail := none }

/-- A row of the board for a request that holds the vehicle `vehicle` of class `vehicleType`
and, when `driver` is given, a driver. -/
def assignedRow (id vehicle vehicleType : String) (driver : Option String) : RequestRow :=
  withCountdown 1700000300000
    ⟨id, { (pendingDoc id "chest pain").data with
            status := some "assigned"
            assignedVehicle := some vehicle
            assignedVehicleType := some vehicleType
            vehicleAssignedAt := some 1700000000
            assignedDriverId := driver }⟩

/-- The ambulances of the pool once the first one is taken. -/
def ambulancesFirstTaken : List Vehicle :=
  { id := "Ambulance-1", available := false } :: (unitsOf "Ambulance-").tail

/-- The pool after `n` requests that name no type have each been given a vehicle. -/
def takeAmbulances : Nat → Pool
  | 0 => defaultVehicles
  | n + 1 =>
    (assignVehicle (takeAmbulances n) (withCountdown 1700000300000 (pendingDoc "r1" "chest pain"))
      true).vehicles

/-- The document id that a store operation addresses. -/
def StoreOp.docId : StoreOp → String
  | StoreOp.updateRequest id _ => id
  | StoreOp.updateDriver id _ => id
  | StoreOp.deleteRequest id => id

/-- A driver as the registration form creates it. -/
def registeredDriver (id vehicleType : String) : DriverDoc :=
  { id := id
    uid := some "u1"
    name := some "Ravi"
    email := some "ravi@example.org"
    phone := some "5550111"
    vehicleType := some vehicleType
    assignedVehicleType := none
    available := some true
    status := some "active"
    assignedVehicle := none
    location := none
    createdAt := some "2023-11-14T22:13:20.000Z"
    liveShare := none
    lastSharedAt := none }

/-- A driver document that has no `available` field. -/
def driverWithoutFlag : DriverDoc := { registeredDriver "d1" "Ambulance" with available := none }

/-- An accepted request that holds the vehicle "Ambulance-1" and no driver. -/
def acceptedDoc : SnapshotDoc :=
  ⟨"r1", { (pendingDoc "r1" "chest pain").data with
            status := some "Accepted"
            assignedVehicle := some "Ambulance-1"
            assignedVehicleType := some "ambulance"
            vehicleAssignedAt := some 1700000000 }⟩

/-- The portal of a driver on duty who shares the location, with the record loaded. -/
def sharingPortal : PortalState :=
  { driver := some { status := some "active", liveShare := some true, lastSharedAt := none }
    driverDocId := some "d2"
    profileForm := ⟨"Ravi", "5550111", "ambulance"⟩
    notification := none }

/-- The portal before the driver record has loaded. -/
def emptyPortal : PortalState :=
  { driver := none
    driverDocId := none
    profileForm := ⟨"", "", ""⟩
    notification := none }

/-- The update that `assignVehicle` writes for the given unit. -/
def assignedWith (vehicle vehicleType : String) : RequestUpdate :=
  { status := some "assigned"
    assignedVehicle := some vehicle
    assignedVehicleType := some vehicleType
    vehicleAssignedAt := true
    assignedDriverId := none
    assignedDriverEmail := none }

/-- An accepted request with the given creation timestamp, in seconds. -/
def timedDoc (id : String) (seconds : Option Nat) : SnapshotDoc :=
  ⟨id, { (pendingDoc id "chest pain").data with
            status := some "Accepted"
            timestamp := seconds }⟩

/-! ## The auto-accept rule -/

theorem statusUpdate_accepted (requests : List LocalRequest) (reqId : String) (now : Nat) :
    statusUpdate requests reqId "Accepted" now =
      acceptedWith (vehicleId (vehicleTypeOf (typeSrc requests reqId)) (slot now + 1))
        (vehicleTypeOf (typeSrc requests reqId)) := by
  simp [statusUpdate, acceptedWith]

theorem typeSrc_initial (reqId : String) : typeSrc initialRequests reqId = "" := by
  simp [typeSrc, initialRequests, toLowerCase]

theorem vehicleTypeOf_empty : vehicleTypeOf "" = "ambulance" := by decide

/-- Every pending record of the list gets its write. -/
theorem acceptPending_mem (requests : List LocalRequest) (clock : Nat → Nat)
    (writeOk : Nat → Bool) (req : LocalRequest) (hp : req.status = "Pending") :
    ∀ (all : List LocalRequest) (k : Nat) (prev : List LocalRequest), req ∈ all →
      ∃ j, StoreOp.updateRequest req.id (statusUpdate requests req.id "Accepted" (clock j)) ∈
        (acceptPending requests clock writeOk k all prev).1 := by
  intro all
  induction all with
  | nil => intro k prev h; simp at h
  | cons r rest ih =>
    intro k prev h
    rcases List.mem_cons.mp h with h | h
    · subst h
      refine ⟨k, ?_⟩
      simp [acceptPending, hp, handleStatusUpdate]
    · by_cases hr : r.status = "Pending"
      · obtain ⟨j, hj⟩ := ih (k + 1)
          (handleStatusUpdate requests r.id "Accepted" (clock k) (writeOk k) prev).requests h
        exact ⟨j, by simp only [acceptPending, hr, if_true]; exact List.mem_cons_of_mem _ hj⟩
      · obtain ⟨j, hj⟩ := ih k prev h
        exact ⟨j, by simpa only [acceptPending, hr, if_false] using hj⟩

/-- Every write of the loop is the accepting write of a pending record of the list. -/
theorem acceptPending_writes (requests : List LocalRequest) (clock : Nat → Nat)
    (writeOk : Nat → Bool) (op : StoreOp) :
    ∀ (all : List LocalRequest) (k : Nat) (prev : List LocalRequest),
      op ∈ (acceptPending requests clock writeOk k all prev).1 →
      ∃ req ∈ all, req.status = "Pending" ∧
        ∃ j, op = StoreOp.updateRequest req.id (statusUpdate requests req.id "Accepted" (clock j)) := by
  intro all
  induction all with
  | nil => intro k prev h; simp [acceptPending] at h
  | cons r rest ih =>
    intro k prev h
    by_cases hr : r.status = "Pending"
    · simp only [acceptPending, hr, if_true] at h
      rcases List.mem_cons.mp h with h | h
      · exact ⟨r, List.mem_cons_self _ _, hr, k, by simpa [handleStatusUpdate] using h⟩
      · obtain ⟨q, hq, hqp, j, hj⟩ := ih _ _ h
        exact ⟨q, List.mem_cons_of_mem _ hq, hqp, j, hj⟩
    · simp only [acceptPending, hr, if_false] at h
      obtain ⟨q, hq, hqp, j, hj⟩ := ih _ _ h
      exact ⟨q, List.mem_cons_of_mem _ hq, hqp, j, hj⟩

/-- C1: on a change notification, every record whose mapped status is "Pending" (whatever its
timestamp, and whatever request list the handler has captured) gets a write that sets status to
"Accepted" together with a non-null assignedVehicle and a non-null assignedVehicleType. -/
theorem pending_record_is_accepted (requests : List LocalRequest) (clock : Nat → Nat)
    (writeOk : Nat → Bool) (endNow : Nat) (docs : List SnapshotDoc) (prev : List LocalRequest)
    (d : SnapshotDoc) (hd : d ∈ docs) (hp : (mapDoc d).status = "Pending") :
    ∃ u, StoreOp.updateRequest d.id u ∈
        (onSnapshotWith requests clock writeOk endNow docs prev).writes ∧
      u.status = some "Accepted" ∧ u.assignedVehicle ≠ none ∧ u.assignedVehicleType ≠ none := by
  obtain ⟨j, hj⟩ := acceptPending_mem requests clock writeOk (mapDoc d) hp (docs.map mapDoc) 0
    prev (List.mem_map_of_mem _ hd)
  refine ⟨_, hj, ?_⟩
  simp [statusUpdate_accepted, acceptedWith]

/-- C1, at a request without a timestamp whose status field is missing. -/
theorem pending_record_is_accepted_witness :
    ∃ u, StoreOp.updateRequest "r1" u ∈
        (onSnapshotWith initialRequests (fun _ => 1700000000000) (fun _ => true) 1700000000000
          [⟨"r1", { (pendingDoc "r1" "chest pain").data with
                      status := none, timestamp := none }⟩] []).writes ∧
      u.status = some "Accepted" ∧ u.assignedVehicle ≠ none ∧ u.assignedVehicleType ≠ none :=
  pending_record_is_accepted initialRequests (fun _ => 1700000000000) (fun _ => true)
    1700000000000 _ [] ⟨"r1", { (pendingDoc "r1" "chest pain").data with
                      status := none, timestamp := none }⟩ (List.mem_singleton.mpr rfl)
    (by decide)

/-- C2: on the listener of the page, a pending request with situation "fire in kitchen" is
accepted as an ambulance call: the write carries assignedVehicleType "ambulance" and
assignedVehicle "Ambulance-4", not a fire engine. -/
theorem fire_request_stamped_ambulance :
    (onSnapshot (fun _ => 1700000000000) (fun _ => true) 1700000000000
        [pendingDoc "r1" "fire in kitchen"] []).writes =
      [StoreOp.updateRequest "r1" (acceptedWith "Ambulance-4" "ambulance")] := by
  decide

/-- C3: on the listener of the page, a pending request with situation "robbery, police needed"
is accepted as an ambulance call: the write carries assignedVehicleType "ambulance" and
assignedVehicle "Ambulance-4", not a police van. -/
theorem police_request_stamped_ambulance :
    (onSnapshot (fun _ => 1700000000000) (fun _ => true) 1700000000000
        [pendingDoc "r2" "robbery, police needed"] []).writes =
      [StoreOp.updateRequest "r2" (acceptedWith "Ambulance-4" "ambulance")] := by
  decide

/-- The keyword rule itself, when the record is in the captured list: the same request is then
stamped with a fire engine. -/
theorem keyword_match_when_record_is_known :
    statusUpdate [mapDoc (pendingDoc "r1" "fire in kitchen")] "r1" "Accepted" 1700000000000 =
      acceptedWith "FireEngine-4" "fireengine" := by
  decide

/-- Every write of the listener of the page accepts a request as an ambulance call, whatever
the documents of the notification say: the text that the keyword match sees is always empty. -/
theorem onSnapshot_stamps_ambulance (clock : Nat → Nat) (writeOk : Nat → Bool) (endNow : Nat)
    (docs : List SnapshotDoc) (prev : List LocalRequest) (op : StoreOp)
    (hop : op ∈ (onSnapshot clock writeOk endNow docs prev).writes) :
    ∃ (id : String) (n : Int),
      op = StoreOp.updateRequest id (acceptedWith ("Ambulance-" ++ toString n) "ambulance") := by
  obtain ⟨q, _, _, j, hj⟩ := acceptPending_writes initialRequests clock writeOk _
    (docs.map mapDoc) 0 prev hop
  rw [statusUpdate_accepted, typeSrc_initial, vehicleTypeOf_empty] at hj
  exact ⟨q.id, slot (clock j) + 1, hj⟩

/-- C4: on the listener of the page, a pending request of a notification whose situation text
contains none of "fire", "police" and "crime" gets an accepting write, and every such write
stamps assignedVehicleType "ambulance" and an assignedVehicle of the form "Ambulance-N". -/
theorem other_request_stamped_ambulance (clock : Nat → Nat) (writeOk : Nat → Bool) (endNow : Nat)
    (docs : List SnapshotDoc) (prev : List LocalRequest) (d : SnapshotDoc) (hd : d ∈ docs)
    (hp : (mapDoc d).status = "Pending")
    (_hfire : includes (toLowerCase (mapDoc d).situation) "fire" = false)
    (_hpolice : includes (toLowerCase (mapDoc d).situation) "police" = false)
    (_hcrime : includes (toLowerCase (mapDoc d).situation) "crime" = false) :
    (∃ u, StoreOp.updateRequest d.id u ∈ (onSnapshot clock writeOk endNow docs prev).writes) ∧
      ∀ u, StoreOp.updateRequest d.id u ∈ (onSnapshot clock writeOk endNow docs prev).writes →
        u.status = some "Accepted" ∧ u.assignedVehicleType = some "ambulance" ∧
          ∃ n : Int, u.assignedVehicle = some ("Ambulance-" ++ toString n) := by
  constructor
  · obtain ⟨j, hj⟩ := acceptPending_mem initialRequests clock writeOk (mapDoc d) hp
      (docs.map mapDoc) 0 prev (List.mem_map_of_mem _ hd)
    exact ⟨_, hj⟩
  · intro u hu
    obtain ⟨id, n, h⟩ := onSnapshot_stamps_ambulance clock writeOk endNow docs prev _ hu
    injection h with _ hu'
    subst hu'
    exact ⟨rfl, rfl, n, rfl⟩

/-- C4, at a request with no situation at all. -/
theorem other_request_stamped_ambulance_witness :
    (∃ u, StoreOp.updateRequest "r3" u ∈
        (onSnapshot (fun _ => 1700000000000) (fun _ => true) 1700000000000
          [⟨"r3", { (pendingDoc "r3" "").data with situation := none }⟩] []).writes) ∧
      ∀ u, StoreOp.updateRequest "r3" u ∈
        (onSnapshot (fun _ => 1700000000000) (fun _ => true) 1700000000000
          [⟨"r3", { (pendingDoc "r3" "").data with situation := none }⟩] []).writes →
        u.status = some "Accepted" ∧ u.assignedVehicleType = some "ambulance" ∧
          ∃ n : Int, u.assignedVehicle = some ("Ambulance-" ++ toString n) :=
  other_request_stamped_ambulance (fun _ => 1700000000000) (fun _ => true) 1700000000000 _ []
    ⟨"r3", { (pendingDoc "r3" "").data with situation := none }⟩ (List.mem_singleton.mpr rfl)
    (by decide) (by decide) (by decide) (by decide)

/-! ## The unit number -/

theorem toInt32_of_lt (m : Nat) (h : m < 2147483648) : toInt32 (m : Int) = (m : Int) := by
  unfold toInt32
  have h1 : (m : Int) % 4294967296 = (m : Int) := by omega
  simp only [h1]
  rw [if_neg]
  omega

theorem slot_of_lt (now : Nat) (h : now / 60000 < 2147483648) :
    slot now = ((now / 60000 % 10 : Nat) : Int) := by
  unfold slot jsRem
  rw [toInt32_of_lt _ h]
  exact (Int.ofNat_tmod (now / 60000) 10).symm

/-- C5, as stated: at the clock value 128849018880000 (minute 2^31 of the epoch) the unit number
of the stamped identifier is -7, while (floor(epochMillis / 60000) mod 10) + 1 is 9. -/
theorem unit_number_wraps_at_minute_2_pow_31 :
    (handleStatusUpdate initialRequests "r1" "Accepted" 128849018880000 true []).write =
        StoreOp.updateRequest "r1" (acceptedWith "Ambulance--7" "ambulance") ∧
      slot 128849018880000 + 1 = -7 ∧
      128849018880000 / 60000 % 10 + 1 = 9 ∧
      (handleStatusUpdate initialRequests "r1" "Accepted" 128849018880000 true []).write ≠
        StoreOp.updateRequest "r1" (acceptedWith "Ambulance-9" "ambulance") := by
  decide

/-- C5, amended: for every clock value with floor(epochMillis / 60000) < 2^31, the unit number
computed by the code, ((epochMillis / 60000) | 0) % 10 + 1, equals
(floor(epochMillis / 60000) mod 10) + 1, and the stamped assignedVehicle is the label of the
stamped vehicle type followed by that number in decimal. -/
theorem unit_number_below_minute_2_pow_31 (requests : List LocalRequest) (reqId : String)
    (now : Nat) (writeOk : Bool) (prev : List LocalRequest) (h : now / 60000 < 2147483648) :
    slot now + 1 = ((now / 60000 % 10 + 1 : Nat) : Int) ∧
      (handleStatusUpdate requests reqId "Accepted" now writeOk prev).write =
        StoreOp.updateRequest reqId
          (acceptedWith
            (unitLabel (vehicleTypeOf (typeSrc requests reqId)) ++ toString (now / 60000 % 10 + 1))
            (vehicleTypeOf (typeSrc requests reqId))) := by
  have hs : slot now + 1 = ((now / 60000 % 10 + 1 : Nat) : Int) := by
    rw [slot_of_lt now h]; push_cast; rfl
  refine ⟨hs, ?_⟩
  simp only [handleStatusUpdate, statusUpdate_accepted, vehicleId, hs]
  rfl

/-- C5, amended, at a clock value of November 2023. -/
theorem unit_number_below_minute_2_pow_31_witness :
    slot 1700000000000 + 1 = ((1700000000000 / 60000 % 10 + 1 : Nat) : Int) ∧
      (handleStatusUpdate initialRequests "r1" "Accepted" 1700000000000 true []).write =
        StoreOp.updateRequest "r1"
          (acceptedWith
            (unitLabel (vehicleTypeOf (typeSrc initialRequests "r1")) ++
              toString (1700000000000 / 60000 % 10 + 1))
            (vehicleTypeOf (typeSrc initialRequests "r1"))) :=
  unit_number_below_minute_2_pow_31 initialRequests "r1" 1700000000000 true [] (by decide)

/-- C6, as stated: for the request "fire in kitchen" the listener of the page writes
assignedVehicleType "ambulance" at both clock values below, each in minute 42 of an hour; at the
first (November 2023) the identifier is "Ambulance-3", at the second (past minute 2^31 of the
epoch) it is "Ambulance--3". Neither write is the one of the scenario. -/
theorem fire_in_kitchen_not_fire_engine_3 :
    1700001720000 / 60000 % 60 = 42 ∧
      (onSnapshot (fun _ => 1700001720000) (fun _ => true) 1700001720000
          [pendingDoc "r1" "fire in kitchen"] []).writes =
        [StoreOp.updateRequest "r1" (acceptedWith "Ambulance-3" "ambulance")] ∧
      128849020920000 / 60000 % 60 = 42 ∧
      (onSnapshot (fun _ => 128849020920000) (fun _ => true) 128849020920000
          [pendingDoc "r1" "fire in kitchen"] []).writes =
        [StoreOp.updateRequest "r1" (acceptedWith "Ambulance--3" "ambulance")] ∧
      StoreOp.updateRequest "r1" (acceptedWith "FireEngine-3" "fireengine") ∉
        (onSnapshot (fun _ => 1700001720000) (fun _ => true) 1700001720000
          [pendingDoc "r1" "fire in kitchen"] []).writes ∧
      StoreOp.updateRequest "r1" (acceptedWith "FireEngine-3" "fireengine") ∉
        (onSnapshot (fun _ => 128849020920000) (fun _ => true) 128849020920000
          [pendingDoc "r1" "fire in kitchen"] []).writes := by
  decide

/-- C6, amended: when every clock reading lies in minute 42 of an hour and before minute 2^31
of the epoch, a pending request with situation "fire in kitchen" delivered in a change
notification is written with status "Accepted" and with the identifier of unit 3 of the vehicle
class that the write stamps. -/
theorem fire_in_kitchen_minute_42 (requests : List LocalRequest) (clock : Nat → Nat)
    (writeOk : Nat → Bool) (endNow : Nat) (docs : List SnapshotDoc) (prev : List LocalRequest)
    (d : SnapshotDoc) (hd : d ∈ docs) (hp : (mapDoc d).status = "Pending")
    (_hs : (mapDoc d).situation = "fire in kitchen")
    (h42 : ∀ k, clock k / 60000 % 60 = 42) (hlt : ∀ k, clock k / 60000 < 2147483648) :
    ∃ u vehicleType, StoreOp.updateRequest d.id u ∈
        (onSnapshotWith requests clock writeOk endNow docs prev).writes ∧
      u.status = some "Accepted" ∧ u.assignedVehicleType = some vehicleType ∧
      u.assignedVehicle = some (unitLabel vehicleType ++ "3") := by
  obtain ⟨j, hj⟩ := acceptPending_mem requests clock writeOk (mapDoc d) hp (docs.map mapDoc) 0
    prev (List.mem_map_of_mem _ hd)
  refine ⟨_, vehicleTypeOf (typeSrc requests (mapDoc d).id), hj, ?_⟩
  have hs : slot (clock j) + 1 = 3 := by
    rw [slot_of_lt _ (hlt j)]
    have := h42 j
    omega
  simp only [statusUpdate_accepted, acceptedWith, vehicleId, hs, true_and]
  rfl

/-- C6, amended, at a clock value of November 2023. -/
theorem fire_in_kitchen_minute_42_witness :
    ∃ u vehicleType, StoreOp.updateRequest "r1" u ∈
        (onSnapshotWith initialRequests (fun _ => 1700001720000) (fun _ => true) 1700001720000
          [pendingDoc "r1" "fire in kitchen"] []).writes ∧
      u.status = some "Accepted" ∧ u.assignedVehicleType = some vehicleType ∧
      u.assignedVehicle = some (unitLabel vehicleType ++ "3") :=
  fire_in_kitchen_minute_42 initialRequests (fun _ => 1700001720000) (fun _ => true)
    1700001720000 [pendingDoc "r1" "fire in kitchen"] [] (pendingDoc "r1" "fire in kitchen")
    (List.mem_singleton.mpr rfl) (by decide) (by decide) (fun _ => (by decide : 1700001720000 / 60000 % 60 = 42))
    (fun _ => (by decide : 1700001720000 / 60000 < 2147483648))

/-- C7: the stamped unit is a function of the stamped vehicle type and the clock minute alone
(the computation has no access to the vehicle pool): two accepting writes that stamp the same
vehicle type at clock values of the same epoch minute stamp the same assignedVehicle. -/
theorem same_type_same_minute_same_unit (requests₁ requests₂ : List LocalRequest)
    (id₁ id₂ : String) (now₁ now₂ : Nat) (ok₁ ok₂ : Bool) (prev₁ prev₂ : List LocalRequest)
    (u₁ u₂ : RequestUpdate)
    (h₁ : (handleStatusUpdate requests₁ id₁ "Accepted" now₁ ok₁ prev₁).write =
      StoreOp.updateRequest id₁ u₁)
    (h₂ : (handleStatusUpdate requests₂ id₂ "Accepted" now₂ ok₂ prev₂).write =
      StoreOp.updateRequest id₂ u₂)
    (htype : u₁.assignedVehicleType = u₂.assignedVehicleType)
    (hminute : now₁ / 60000 = now₂ / 60000) :
    u₁.assignedVehicle = u₂.assignedVehicle := by
  simp only [handleStatusUpdate, statusUpdate_accepted] at h₁ h₂
  injection h₁ with _ h₁
  injection h₂ with _ h₂
  subst h₁ h₂
  simp only [acceptedWith, Option.some.injEq] at htype ⊢
  simp only [slot, hminute, htype]

/-- C7, at two requests accepted 19 seconds apart in one minute. -/
theorem same_type_same_minute_same_unit_witness :
    (acceptedWith "Ambulance-4" "ambulance").assignedVehicle =
      (acceptedWith "Ambulance-4" "ambulance").assignedVehicle :=
  same_type_same_minute_same_unit initialRequests [mapDoc (pendingDoc "r2" "fever")] "r1" "r2"
    1700000000000 1700000019000 true false [] [] _ _ (by decide) (by decide) (by decide)
    (by decide)

/-! ## The vehicle pool -/

theorem unitIds_default_nodup (key : String) : (unitIds defaultVehicles key).Nodup := by
  unfold unitIds defaultVehicles
  split_ifs <;> decide

theorem unitIds_default_ne_empty (key : String) : "" ∉ unitIds defaultVehicles key := by
  unfold unitIds defaultVehicles
  split_ifs <;> decide

theorem unitIds_default_key (key id : String) (h : id ∈ unitIds defaultVehicles key) :
    key ≠ "" := by
  intro hk
  subst hk
  exact absurd h (by simp [unitIds, defaultVehicles])

theorem map_id_setAvailable (units : List Vehicle) (id : String) (b : Bool) :
    (units.map fun v => if v.id = id then { v with available := b } else v).map Vehicle.id =
      units.map Vehicle.id := by
  induction units with
  | nil => rfl
  | cons v rest ih =>
    simp only [List.map_cons, ih]
    split_ifs <;> rfl

/-- The pool is left alone when `assignVehicle` finds no free unit. -/
theorem assignVehicle_none (vehicles : Pool) (request : RequestRow) (writeOk : Bool)
    (h : ((vehicles (requestedType request)).bind fun units =>
      units.find? fun v => v.available) = none) :
    (assignVehicle vehicles request writeOk).vehicles = vehicles ∧
      (assignVehicle vehicles request writeOk).writes = [] := by
  simp only [assignVehicle, h, and_self]

/-- The pool and the write of `assignVehicle` when it finds the free unit `unit`. -/
theorem assignVehicle_some (vehicles : Pool) (request : RequestRow) (writeOk : Bool)
    (unit : Vehicle)
    (h : ((vehicles (requestedType request)).bind fun units =>
      units.find? fun v => v.available) = some unit) :
    (assignVehicle vehicles request writeOk).vehicles =
        (fun key =>
          if key = requestedType request then
            (vehicles (requestedType request)).map fun units =>
              units.map fun v => if v.id = unit.id then { v with available := false } else v
          else vehicles key) ∧
      (assignVehicle vehicles request writeOk).writes =
        [StoreOp.updateRequest request.id
          { status := some "assigned"
            assignedVehicle := some unit.id
            assignedVehicleType := some (requestedType request)
            vehicleAssignedAt := true
            assignedDriverId := none
            assignedDriverEmail := none }] := by
  simp only [assignVehicle, h, and_self]

theorem unitIds_assignVehicle (vehicles : Pool) (request : RequestRow) (writeOk : Bool)
    (key : String) :
    unitIds (assignVehicle vehicles request writeOk).vehicles key = unitIds vehicles key := by
  cases h : (vehicles (requestedType request)).bind fun units =>
      units.find? fun v => v.available with
  | none => rw [(assignVehicle_none vehicles request writeOk h).1]
  | some unit =>
    rw [(assignVehicle_some vehicles request writeOk unit h).1]
    simp only [unitIds]
    split_ifs with hk
    · subst hk
      cases vehicles (requestedType request) with
      | none => rfl
      | some units => simp only [Option.map_some', Option.getD_some, map_id_setAvailable]
    · rfl

/-- The pool after a confirmed `deleteRequestRecord` of a request that names a type and a
vehicle. -/
theorem deleteRequestRecord_vehicles (vehicles : Pool) (request : RequestRow)
    (driverOk deleteOk : Bool) (assignedVehicleId : String)
    (hid : request.data.assignedVehicle = some assignedVehicleId) (hne : assignedVehicleId ≠ "")
    (htype : normalizeType (some (orStr request.data.assignedVehicleType
      (orStr request.data.vehicle (orStr request.data.vehicleType "")))) ≠ "") :
    (deleteRequestRecord vehicles request true driverOk deleteOk).vehicles =
      fun key =>
        if key = normalizeType (some (orStr request.data.assignedVehicleType
            (orStr request.data.vehicle (orStr request.data.vehicleType "")))) then
          some (((vehicles (normalizeType (some (orStr request.data.assignedVehicleType
            (orStr request.data.vehicle (orStr request.data.vehicleType "")))))).getD []).map
              fun v => if v.id = assignedVehicleId then { v with available := true } else v)
        else vehicles key := by
  simp only [deleteRequestRecord, hid, if_true, htype, hne, or_self, if_false]

theorem unitIds_deleteRequestRecord (vehicles : Pool) (request : RequestRow)
    (confirmDelete driverOk deleteOk : Bool) (key : String) :
    unitIds (deleteRequestRecord vehicles request confirmDelete driverOk deleteOk).vehicles key =
      unitIds vehicles key := by
  cases confirmDelete with
  | false => simp only [deleteRequestRecord, Bool.false_eq_true, if_false]
  | true =>
    cases hid : request.data.assignedVehicle with
    | none => simp only [deleteRequestRecord, hid, if_true]
    | some assignedVehicleId =>
      by_cases hg : normalizeType (some (orStr request.data.assignedVehicleType
          (orStr request.data.vehicle (orStr request.data.vehicleType "")))) = "" ∨
          assignedVehicleId = ""
      · simp only [deleteRequestRecord, hid, if_true, hg]
      · rw [deleteRequestRecord_vehicles vehicles request driverOk deleteOk assignedVehicleId hid
          (fun h => hg (Or.inr h)) (fun h => hg (Or.inl h))]
        simp only [unitIds]
        split_ifs with hk
        · subst hk
          simp only [Option.getD_some, map_id_setAvailable]
        · rfl

/-- In every pool state of a session the identifiers of each class are those of
`defaultVehicles`, in the same order. -/
theorem Reachable.unitIds_eq {vehicles : Pool} (h : Reachable vehicles) (key : String) :
    unitIds vehicles key = unitIds defaultVehicles key := by
  induction h with
  | default => rfl
  | assign vehicles request writeOk _ ih => rw [unitIds_assignVehicle, ih]
  | delete vehicles request c d e _ ih => rw [unitIds_deleteRequestRecord, ih]

theorem forall₂_setAvailable (units : List Vehicle) (id : String) (b : Bool) :
    List.Forall₂
      (fun v v' => v'.id = v.id ∧ v'.available = if v.id = id then b else v.available) units
      (units.map fun v => if v.id = id then { v with available := b } else v) := by
  induction units with
  | nil => exact List.Forall₂.nil
  | cons v rest ih =>
    refine List.Forall₂.cons ?_ ih
    split_ifs with h <;> simp [h]

theorem map_setAvailable_of_nodup (before after : List Vehicle) (unit : Vehicle) (b : Bool)
    (h : ((before ++ unit :: after).map Vehicle.id).Nodup) :
    ((before ++ unit :: after).map fun v =>
        if v.id = unit.id then { v with available := b } else v) =
      before ++ { unit with available := b } :: after := by
  simp only [List.map_append, List.map_cons, List.nodup_append, List.nodup_cons] at h
  obtain ⟨_, ⟨hafter, _⟩, hdisj⟩ := h
  have hb : ∀ v ∈ before, v.id ≠ unit.id := fun v hv hid =>
    hdisj (List.mem_map_of_mem Vehicle.id hv) (hid ▸ List.mem_cons_self _ _)
  have ha : ∀ v ∈ after, v.id ≠ unit.id := fun v hv hid =>
    hafter (hid ▸ List.mem_map_of_mem Vehicle.id hv)
  simp only [List.map_append, List.map_cons, if_true]
  congr 1
  · exact (List.map_congr_left fun v hv => if_neg (hb v hv)).trans (List.map_id _)
  · congr 1
    exact (List.map_congr_left fun v hv => if_neg (ha v hv)).trans (List.map_id _)

theorem normalizeType_missing (raw : Option String) (h : normalizeType raw ≠ "") :
    ∃ s, raw = some s ∧ s ≠ "" := by
  cases raw with
  | none => exact absurd rfl h
  | some s =>
    refine ⟨s, rfl, ?_⟩
    intro hs
    subst hs
    exact h (by decide)

/-! ## Deleting a request -/

/-- C8: for a request bound to a driver (a non-empty assignedDriverId), a confirmed
`deleteRequestRecord` issues one driver write, to the record of that driver, with
available = true and assignedVehicle = null, and then the deletion of the request; a declined
one issues no store operation and leaves the pool as it is. -/
theorem delete_releases_bound_driver (vehicles : Pool) (request : RequestRow)
    (driverOk deleteOk : Bool) (driverId : String)
    (hdriver : request.data.assignedDriverId = some driverId) (hne : driverId ≠ "") :
    (deleteRequestRecord vehicles request true driverOk deleteOk).writes =
        [StoreOp.updateDriver driverId { available := some true, assignedVehicle := some none },
          StoreOp.deleteRequest request.id] ∧
      (deleteRequestRecord vehicles request false driverOk deleteOk).writes = [] ∧
      (deleteRequestRecord vehicles request false driverOk deleteOk).vehicles = vehicles := by
  simp [deleteRequestRecord, hdriver, hne]

/-- C9: in every pool state of a session, a confirmed `deleteRequestRecord` of a request whose
assignedVehicle is the id of a unit of the class named by its normalized assignedVehicleType
marks that unit available; the units of the class keep their ids and order, no other unit of
the class (the ids of a class are distinct) changes its availability, and every other class is
unchanged. -/
theorem delete_frees_the_unit (vehicles : Pool) (hreach : Reachable vehicles)
    (request : RequestRow) (driverOk deleteOk : Bool) (units : List Vehicle) (unit : Vehicle)
    (hclass : vehicles (normalizeType request.data.assignedVehicleType) = some units)
    (hunit : unit ∈ units) (hid : request.data.assignedVehicle = some unit.id) :
    ∃ units', (deleteRequestRecord vehicles request true driverOk deleteOk).vehicles
          (normalizeType request.data.assignedVehicleType) = some units' ∧
      { unit with available := true } ∈ units' ∧
      (units.map Vehicle.id).Nodup ∧
      List.Forall₂
        (fun v v' => v'.id = v.id ∧ v'.available = if v.id = unit.id then true else v.available)
        units units' ∧
      ∀ key, key ≠ normalizeType request.data.assignedVehicleType →
        (deleteRequestRecord vehicles request true driverOk deleteOk).vehicles key =
          vehicles key := by
  have hids : units.map Vehicle.id =
      unitIds defaultVehicles (normalizeType request.data.assignedVehicleType) := by
    rw [← hreach.unitIds_eq, unitIds, hclass, Option.getD_some]
  have hmem : unit.id ∈ unitIds defaultVehicles (normalizeType request.data.assignedVehicleType) :=
    hids ▸ List.mem_map_of_mem Vehicle.id hunit
  have hkey := unitIds_default_key _ _ hmem
  have hidne : unit.id ≠ "" := fun h => unitIds_default_ne_empty _ (h ▸ hmem)
  obtain ⟨s, hs, hsne⟩ := normalizeType_missing _ hkey
  have hraw : orStr request.data.assignedVehicleType
      (orStr request.data.vehicle (orStr request.data.vehicleType "")) = s := by
    simp [hs, orStr, hsne]
  have hkey' : normalizeType (some s) ≠ "" := hs ▸ hkey
  have hv := deleteRequestRecord_vehicles vehicles request driverOk deleteOk unit.id hid hidne
    (by rw [hraw]; exact hkey')
  rw [hraw] at hv
  rw [hs] at hclass ⊢
  refine ⟨units.map fun v => if v.id = unit.id then { v with available := true } else v,
    ?_, ?_, ?_, forall₂_setAvailable units unit.id true, ?_⟩
  · rw [hv]
    simp only [if_true, hclass, Option.getD_some]
  · exact List.mem_map.mpr ⟨unit, hunit, by simp⟩
  · rw [hids]
    exact unitIds_default_nodup _
  · intro key hk
    rw [hv]
    simp only [hk, if_false]

/-- C8, at a request bound to the driver "d7". -/
theorem delete_releases_bound_driver_witness :
    (deleteRequestRecord defaultVehicles (assignedRow "r1" "Ambulance-1" "ambulance" (some "d7"))
          true true true).writes =
        [StoreOp.updateDriver "d7" { available := some true, assignedVehicle := some none },
          StoreOp.deleteRequest (assignedRow "r1" "Ambulance-1" "ambulance" (some "d7")).id] ∧
      (deleteRequestRecord defaultVehicles (assignedRow "r1" "Ambulance-1" "ambulance" (some "d7"))
          false true true).writes = [] ∧
      (deleteRequestRecord defaultVehicles (assignedRow "r1" "Ambulance-1" "ambulance" (some "d7"))
          false true true).vehicles = defaultVehicles :=
  delete_releases_bound_driver defaultVehicles
    (assignedRow "r1" "Ambulance-1" "ambulance" (some "d7")) true true "d7" rfl (by decide)

/-- C9, at the pool in which "Ambulance-1" has been assigned to the request. -/
theorem delete_frees_the_unit_witness :
    ∃ units',
      (deleteRequestRecord
          (assignVehicle defaultVehicles (withCountdown 1700000300000 (pendingDoc "r1" "chest pain"))
            true).vehicles
          (assignedRow "r1" "Ambulance-1" "Ambulance" none) true true true).vehicles
        (normalizeType (assignedRow "r1" "Ambulance-1" "Ambulance" none).data.assignedVehicleType) =
          some units' ∧
      { ({ id := "Ambulance-1", available := false } : Vehicle) with available := true } ∈ units' ∧
      (ambulancesFirstTaken.map Vehicle.id).Nodup ∧
      List.Forall₂
        (fun v v' => v'.id = v.id ∧
          v'.available =
            if v.id = ({ id := "Ambulance-1", available := false } : Vehicle).id then true
            else v.available)
        ambulancesFirstTaken units' ∧
      ∀ key,
        key ≠ normalizeType
          (assignedRow "r1" "Ambulance-1" "Ambulance" none).data.assignedVehicleType →
        (deleteRequestRecord
            (assignVehicle defaultVehicles
              (withCountdown 1700000300000 (pendingDoc "r1" "chest pain")) true).vehicles
            (assignedRow "r1" "Ambulance-1" "Ambulance" none) true true true).vehicles key =
          (assignVehicle defaultVehicles
            (withCountdown 1700000300000 (pendingDoc "r1" "chest pain")) true).vehicles key :=
  delete_frees_the_unit _ (Reachable.assign _ _ _ Reachable.default)
    (assignedRow "r1" "Ambulance-1" "Ambulance" none) true true ambulancesFirstTaken
    { id := "Ambulance-1", available := false } (by decide) (by decide) (by decide)

/-! ## Assigning a vehicle -/

/-- C10: in every pool state of a session, when the class of the request's normalized vehicle
type (ambulance when the request names no type) has a free unit, `assignVehicle` takes the first
unit of the class, in pool order, that is marked available (`before` holds the units in front
of it, none of them available), marks that unit unavailable and leaves every other unit of
every class as it was, and issues one write to the request: assignedVehicle is the id of the
unit, assignedVehicleType the normalized type and status "assigned". -/
theorem assign_takes_first_free_unit (vehicles : Pool) (hreach : Reachable vehicles)
    (request : RequestRow) (writeOk : Bool) (units : List Vehicle)
    (hclass : vehicles (requestedType request) = some units)
    (hfree : ∃ v ∈ units, v.available = true) :
    ∃ before unit after, units = before ++ unit :: after ∧
      (∀ v ∈ before, v.available = false) ∧ unit.available = true ∧
      (assignVehicle vehicles request writeOk).vehicles (requestedType request) =
        some (before ++ { unit with available := false } :: after) ∧
      (∀ key, key ≠ requestedType request →
        (assignVehicle vehicles request writeOk).vehicles key = vehicles key) ∧
      (assignVehicle vehicles request writeOk).writes =
        [StoreOp.updateRequest request.id
          { status := some "assigned"
            assignedVehicle := some unit.id
            assignedVehicleType := some (requestedType request)
            vehicleAssignedAt := true
            assignedDriverId := none
            assignedDriverEmail := none }] := by
  obtain ⟨w, hw, hwa⟩ := hfree
  cases hfind : units.find? fun v => v.available with
  | none =>
    rw [List.find?_eq_none] at hfind
    exact absurd hwa (hfind w hw)
  | some unit =>
    obtain ⟨havail, before, after, hsplit, hbefore⟩ := List.find?_eq_some.mp hfind
    have hbind : ((vehicles (requestedType request)).bind fun units =>
        units.find? fun v => v.available) = some unit := by
      rw [hclass]; exact hfind
    obtain ⟨hv, hwrites⟩ := assignVehicle_some vehicles request writeOk unit hbind
    have hnodup : ((before ++ unit :: after).map Vehicle.id).Nodup := by
      have h := hreach.unitIds_eq (requestedType request)
      rw [unitIds, hclass, Option.getD_some, hsplit] at h
      rw [h]
      exact unitIds_default_nodup _
    refine ⟨before, unit, after, hsplit, ?_, havail, ?_, ?_, hwrites⟩
    · intro v hv'
      simpa using hbefore v hv'
    · rw [hv]
      simp only [if_true, hclass, Option.map_some', hsplit]
      rw [map_setAvailable_of_nodup before after unit false hnodup]
    · intro key hk
      rw [hv]
      simp only [hk, if_false]

/-- C10, at the pool in which "Ambulance-1" is taken: a request that names no type gets
"Ambulance-2". -/
theorem assign_takes_first_free_unit_witness :
    ∃ before unit after, ambulancesFirstTaken = before ++ unit :: after ∧
      (∀ v ∈ before, v.available = false) ∧ unit.available = true ∧
      (assignVehicle
          (assignVehicle defaultVehicles
            (withCountdown 1700000300000 (pendingDoc "r1" "chest pain")) true).vehicles
          (withCountdown 1700000300000 (pendingDoc "r2" "fever")) true).vehicles
          (requestedType (withCountdown 1700000300000 (pendingDoc "r2" "fever"))) =
        some (before ++ { unit with available := false } :: after) ∧
      (∀ key, key ≠ requestedType (withCountdown 1700000300000 (pendingDoc "r2" "fever")) →
        (assignVehicle
          (assignVehicle defaultVehicles
            (withCountdown 1700000300000 (pendingDoc "r1" "chest pain")) true).vehicles
          (withCountdown 1700000300000 (pendingDoc "r2" "fever")) true).vehicles key =
        (assignVehicle defaultVehicles
          (withCountdown 1700000300000 (pendingDoc "r1" "chest pain")) true).vehicles key) ∧
      (assignVehicle
          (assignVehicle defaultVehicles
            (withCountdown 1700000300000 (pendingDoc "r1" "chest pain")) true).vehicles
          (withCountdown 1700000300000 (pendingDoc "r2" "fever")) true).writes =
        [StoreOp.updateRequest (withCountdown 1700000300000 (pendingDoc "r2" "fever")).id
          { status := some "assigned"
            assignedVehicle := some unit.id
            assignedVehicleType :=
              some (requestedType (withCountdown 1700000300000 (pendingDoc "r2" "fever")))
            vehicleAssignedAt := true
            assignedDriverId := none
            assignedDriverEmail := none }] :=
  assign_takes_first_free_unit _ (Reachable.assign _ _ _ Reachable.default)
    (withCountdown 1700000300000 (pendingDoc "r2" "fever")) true ambulancesFirstTaken
    (by decide) ⟨{ id := "Ambulance-2", available := true }, by decide, rfl⟩

theorem reachable_takeAmbulances (n : Nat) : Reachable (takeAmbulances n) := by
  induction n with
  | zero => exact Reachable.default
  | succ n ih => exact Reachable.assign _ _ _ ih

theorem unitIds_default_other (key : String) (ha : key ≠ "ambulance") (hf : key ≠ "fireengine")
    (hp : key ≠ "policevan") : unitIds defaultVehicles key = [] := by
  simp [unitIds, defaultVehicles, ha, hf, hp]

/-- C11: in every pool state of a session, when the normalized type of the request is not one
of ambulance, fireengine and policevan, or every unit of its class is marked unavailable,
`assignVehicle` leaves the whole pool as it is and issues no write. -/
theorem assign_without_free_unit (vehicles : Pool) (hreach : Reachable vehicles)
    (request : RequestRow) (writeOk : Bool)
    (h : (requestedType request ≠ "ambulance" ∧ requestedType request ≠ "fireengine" ∧
        requestedType request ≠ "policevan") ∨
      ∀ v ∈ (vehicles (requestedType request)).getD [], v.available = false) :
    (assignVehicle vehicles request writeOk).vehicles = vehicles ∧
      (assignVehicle vehicles request writeOk).writes = [] := by
  apply assignVehicle_none
  cases hclass : vehicles (requestedType request) with
  | none => rfl
  | some units =>
    show (units.find? fun v => v.available) = none
    rw [List.find?_eq_none]
    intro v hv
    rcases h with ⟨ha, hf, hp⟩ | h
    · have hids := hreach.unitIds_eq (requestedType request)
      rw [unitIds_default_other _ ha hf hp, unitIds, hclass, Option.getD_some] at hids
      rw [List.map_eq_nil_iff.mp hids] at hv
      simp at hv
    · rw [hclass, Option.getD_some] at h
      simp [h v hv]

/-- C11, at the pool in which all ten ambulances are taken. -/
theorem assign_without_free_unit_witness :
    (assignVehicle (takeAmbulances 10) (withCountdown 1700000300000 (pendingDoc "r2" "fever"))
        true).vehicles = takeAmbulances 10 ∧
      (assignVehicle (takeAmbulances 10) (withCountdown 1700000300000 (pendingDoc "r2" "fever"))
        true).writes = [] :=
  assign_without_free_unit (takeAmbulances 10) (reachable_takeAmbulances 10)
    (withCountdown 1700000300000 (pendingDoc "r2" "fever")) true (Or.inr (by decide))

/-- C12: in every pool state reachable from the default pool by `assignVehicle` and
`deleteRequestRecord`, each of the classes ambulance, fireengine and policevan holds exactly
the ten units Ambulance-1..10, FireEngine-1..10 and PoliceVan-1..10, in that order, and no
other class holds a unit. -/
theorem reachable_pool_keeps_units (vehicles : Pool) (hreach : Reachable vehicles) :
    (∃ units, vehicles "ambulance" = some units ∧
        units.map Vehicle.id =
          ["Ambulance-1", "Ambulance-2", "Ambulance-3", "Ambulance-4", "Ambulance-5",
            "Ambulance-6", "Ambulance-7", "Ambulance-8", "Ambulance-9", "Ambulance-10"]) ∧
      (∃ units, vehicles "fireengine" = some units ∧
        units.map Vehicle.id =
          ["FireEngine-1", "FireEngine-2", "FireEngine-3", "FireEngine-4", "FireEngine-5",
            "FireEngine-6", "FireEngine-7", "FireEngine-8", "FireEngine-9", "FireEngine-10"]) ∧
      (∃ units, vehicles "policevan" = some units ∧
        units.map Vehicle.id =
          ["PoliceVan-1", "PoliceVan-2", "PoliceVan-3", "PoliceVan-4", "PoliceVan-5",
            "PoliceVan-6", "PoliceVan-7", "PoliceVan-8", "PoliceVan-9", "PoliceVan-10"]) ∧
      ∀ key, key ≠ "ambulance" → key ≠ "fireengine" → key ≠ "policevan" →
        (vehicles key).getD [] = [] := by
  have hclass : ∀ key ids, unitIds defaultVehicles key = ids → ids ≠ [] →
      ∃ units, vehicles key = some units ∧ units.map Vehicle.id = ids := by
    intro key ids hids hne
    have h := hreach.unitIds_eq key
    rw [hids] at h
    cases hv : vehicles key with
    | none => rw [unitIds, hv] at h; exact absurd h.symm hne
    | some units => exact ⟨units, rfl, by rw [unitIds, hv] at h; exact h⟩
  refine ⟨hclass _ _ (by decide) (by decide), hclass _ _ (by decide) (by decide),
    hclass _ _ (by decide) (by decide), ?_⟩
  intro key ha hf hp
  have h := hreach.unitIds_eq key
  rw [unitIds_default_other key ha hf hp, unitIds] at h
  exact List.map_eq_nil_iff.mp h

/-- C12, at the pool after one assignment and the deletion of that request. -/
theorem reachable_pool_keeps_units_witness :
    (∃ units,
        (deleteRequestRecord (takeAmbulances 1) (assignedRow "r1" "Ambulance-1" "ambulance" none)
          true true true).vehicles "ambulance" = some units ∧
        units.map Vehicle.id =
          ["Ambulance-1", "Ambulance-2", "Ambulance-3", "Ambulance-4", "Ambulance-5",
            "Ambulance-6", "Ambulance-7", "Ambulance-8", "Ambulance-9", "Ambulance-10"]) ∧
      (∃ units,
        (deleteRequestRecord (takeAmbulances 1) (assignedRow "r1" "Ambulance-1" "ambulance" none)
          true true true).vehicles "fireengine" = some units ∧
        units.map Vehicle.id =
          ["FireEngine-1", "FireEngine-2", "FireEngine-3", "FireEngine-4", "FireEngine-5",
            "FireEngine-6", "FireEngine-7", "FireEngine-8", "FireEngine-9", "FireEngine-10"]) ∧
      (∃ units,
        (deleteRequestRecord (takeAmbulances 1) (assignedRow "r1" "Ambulance-1" "ambulance" none)
          true true true).vehicles "policevan" = some units ∧
        units.map Vehicle.id =
          ["PoliceVan-1", "PoliceVan-2", "PoliceVan-3", "PoliceVan-4", "PoliceVan-5",
            "PoliceVan-6", "PoliceVan-7", "PoliceVan-8", "PoliceVan-9", "PoliceVan-10"]) ∧
      ∀ key, key ≠ "ambulance" → key ≠ "fireengine" → key ≠ "policevan" →
        ((deleteRequestRecord (takeAmbulances 1)
          (assignedRow "r1" "Ambulance-1" "ambulance" none) true true true).vehicles key).getD
            [] = [] :=
  reachable_pool_keeps_units _
    (Reachable.delete _ _ _ _ _ (reachable_takeAmbulances 1))

/-! ## Binding a driver -/

theorem orStr_some_ne_empty (x d : String) (hd : d ≠ "") : orStr (some x) d ≠ "" := by
  simp only [orStr]
  split_ifs with h
  · exact hd
  · exact h

theorem orStr_some_of_ne_empty (x d : String) (hx : x ≠ "") : orStr (some x) d = x := by
  simp only [orStr, hx, if_false]

theorem boardRequests_status (docs : List SnapshotDoc) (r : SnapshotDoc)
    (h : r ∈ boardRequests docs) :
    r.data.status = some "Accepted" ∨ r.data.status = some "assigned" := by
  have h2 := (List.mem_filter.mp h).2
  simpa using h2

/-- C13, as stated: for a snapshot that holds one request with status "Accepted" and no bound
driver, the board renders the row of that request (with the initial search text and vehicle
filter), and a driver document without an `available` field is offered for binding in that row,
although its availability flag is not true. -/
theorem driver_without_flag_is_offered :
    (timedDoc "r1" (some 1700000000)).data.status = some "Accepted" ∧
      withCountdown 1700000300000 (timedDoc "r1" (some 1700000000)) ∈
        boardRows 1700000300000 "" "All" [timedDoc "r1" (some 1700000000)] ∧
      driverWithoutFlag ∈
        offeredDrivers [driverWithoutFlag]
          (withCountdown 1700000300000 (timedDoc "r1" (some 1700000000))) ∧
      driverWithoutFlag.available ≠ some true := by
  decide

/-- C13, amended: for every row without a bound driver and every roster, each driver offered
for binding is a driver of the roster whose vehicle type (`vehicleType`, or `assignedVehicleType`
when that is empty) normalizes to the resolved vehicle type of the row and whose availability
flag is not false. -/
theorem offered_driver_matches (drivers : List DriverDoc) (now : Nat) (r : SnapshotDoc)
    (d : DriverDoc) (hd : d ∈ offeredDrivers drivers (withCountdown now r)) :
    d ∈ drivers ∧ truthy r.data.assignedDriverId = false ∧
      (withCountdown now r).resolvedVehicleType =
        some (normalizeType (some (orStr d.vehicleType (orStr d.assignedVehicleType "")))) ∧
      d.available ≠ some false := by
  have hdata : (withCountdown now r).data = r.data := rfl
  have hres : (withCountdown now r).resolvedVehicleType =
      some (orStr (some (normalizeType (some (orStr r.data.assignedVehicleType
        (orStr r.data.vehicleType (orStr r.data.vehicle "")))))) "ambulance") := rfl
  unfold offeredDrivers at hd
  rw [hdata] at hd
  split_ifs at hd with hb
  · simp at hd
  · have hne := orStr_some_ne_empty (normalizeType (some (orStr r.data.assignedVehicleType
      (orStr r.data.vehicleType (orStr r.data.vehicle ""))))) "ambulance" (by decide)
    simp only [eligibleDrivers, hres, hdata, orStr_some_of_ne_empty _ _ hne, List.mem_filter,
      Bool.and_eq_true, bne_iff_ne, ne_eq, beq_iff_eq] at hd
    refine ⟨hd.1, by simpa using hb, ?_, hd.2.1⟩
    rw [hres, hd.2.2]

/-- C13, amended, at a registered ambulance driver and the row of an accepted request. -/
theorem offered_driver_matches_witness :
    registeredDriver "d2" "Ambulance" ∈ [driverWithoutFlag, registeredDriver "d2" "Ambulance"] ∧
      truthy (timedDoc "r1" (some 1700000000)).data.assignedDriverId = false ∧
      (withCountdown 1700000300000 (timedDoc "r1" (some 1700000000))).resolvedVehicleType =
        some (normalizeType (some (orStr (registeredDriver "d2" "Ambulance").vehicleType
          (orStr (registeredDriver "d2" "Ambulance").assignedVehicleType "")))) ∧
      (registeredDriver "d2" "Ambulance").available ≠ some false :=
  offered_driver_matches [driverWithoutFlag, registeredDriver "d2" "Ambulance"] 1700000300000
    (timedDoc "r1" (some 1700000000)) (registeredDriver "d2" "Ambulance") (by decide)

/-- C14: with the driver and the request loaded, when the request write is rejected no driver
write is issued and nothing is stored; when the driver write is rejected after the request
write was accepted, `assignDriver` has issued these two writes and nothing else (no rollback),
the store holds the assignedDriverId on that request, and every driver document, with its
available flag and assignedVehicle, is as it was. -/
theorem assignDriver_not_atomic (drivers : List DriverDoc) (requests : List SnapshotDoc)
    (requestId driverId : String) (driver : DriverDoc) (request : SnapshotDoc)
    (hdriver : (drivers.find? fun d => d.id == driverId) = some driver)
    (hrequest : (requests.find? fun r => r.id == requestId) = some request)
    (driverOk : Bool) (serverTime : Nat) (store : Store) :
    (assignDriver drivers requests requestId driverId false driverOk).accepted = [] ∧
      (∀ id u, StoreOp.updateDriver id u ∉
        (assignDriver drivers requests requestId driverId false driverOk).writes) ∧
      (∃ ru du, ru.assignedDriverId = some driverId ∧
        (assignDriver drivers requests requestId driverId true false).writes =
          [StoreOp.updateRequest requestId ru, StoreOp.updateDriver driverId du] ∧
        (assignDriver drivers requests requestId driverId true false).accepted =
          [StoreOp.updateRequest requestId ru]) ∧
      (store.applyAll serverTime
        (assignDriver drivers requests requestId driverId true false).accepted).drivers =
          store.drivers ∧
      ((store.applyAll serverTime
        (assignDriver drivers requests requestId driverId true false).accepted).requests.map
          fun r => r.id) = store.requests.map (fun r => r.id) ∧
      ∀ r ∈ (store.applyAll serverTime
          (assignDriver drivers requests requestId driverId true false).accepted).requests,
        r.id = requestId → r.data.assignedDriverId = some driverId := by
  simp only [assignDriver, hdriver, hrequest, Bool.false_eq_true, if_false, if_true,
    Store.applyAll, List.foldl_cons, List.foldl_nil, Store.apply, true_and]
  refine ⟨?_, ⟨_, _, rfl, rfl, rfl⟩, ?_, ?_⟩
  · intro id u h
    simp at h
  · rw [List.map_map]
    apply List.map_congr_left
    intro r _
    simp only [Function.comp]
    split_ifs <;> rfl
  · intro r hr hid
    obtain ⟨r₀, _, rfl⟩ := List.mem_map.mp hr
    by_cases h₀ : r₀.id = requestId
    · simp only [h₀, if_true, applyRequestUpdate]
    · rw [if_neg h₀] at hid
      exact absurd hid h₀

/-- C14, at a store that holds the request and the driver. -/
theorem assignDriver_not_atomic_witness :
    (assignDriver [registeredDriver "d2" "Ambulance"] [acceptedDoc] "r1" "d2" false true).accepted =
        [] ∧
      (∀ id u, StoreOp.updateDriver id u ∉
        (assignDriver [registeredDriver "d2" "Ambulance"] [acceptedDoc] "r1" "d2" false
          true).writes) ∧
      (∃ ru du, ru.assignedDriverId = some "d2" ∧
        (assignDriver [registeredDriver "d2" "Ambulance"] [acceptedDoc] "r1" "d2" true
            false).writes =
          [StoreOp.updateRequest "r1" ru, StoreOp.updateDriver "d2" du] ∧
        (assignDriver [registeredDriver "d2" "Ambulance"] [acceptedDoc] "r1" "d2" true
            false).accepted =
          [StoreOp.updateRequest "r1" ru]) ∧
      (Store.applyAll 1700000400 ⟨[acceptedDoc], [registeredDriver "d2" "Ambulance"]⟩
        (assignDriver [registeredDriver "d2" "Ambulance"] [acceptedDoc] "r1" "d2" true
          false).accepted).drivers =
          (⟨[acceptedDoc], [registeredDriver "d2" "Ambulance"]⟩ : Store).drivers ∧
      ((Store.applyAll 1700000400 ⟨[acceptedDoc], [registeredDriver "d2" "Ambulance"]⟩
        (assignDriver [registeredDriver "d2" "Ambulance"] [acceptedDoc] "r1" "d2" true
          false).accepted).requests.map fun r => r.id) =
          (⟨[acceptedDoc], [registeredDriver "d2" "Ambulance"]⟩ : Store).requests.map
            (fun r => r.id) ∧
      ∀ r ∈ (Store.applyAll 1700000400 ⟨[acceptedDoc], [registeredDriver "d2" "Ambulance"]⟩
          (assignDriver [registeredDriver "d2" "Ambulance"] [acceptedDoc] "r1" "d2" true
            false).accepted).requests,
        r.id = "r1" → r.data.assignedDriverId = some "d2" :=
  assignDriver_not_atomic [registeredDriver "d2" "Ambulance"] [acceptedDoc] "r1" "d2"
    (registeredDriver "d2" "Ambulance") acceptedDoc (by decide) (by decide) true 1700000400
    ⟨[acceptedDoc], [registeredDriver "d2" "Ambulance"]⟩

/-! ## Writes of the admin pages to a driver record -/

theorem applyDriverUpdate_frame (u : DriverUpdate) (d : DriverDoc)
    (h : u.onlyAvailabilityAndVehicle) :
    applyDriverUpdate u d =
      { d with
        available := (applyDriverUpdate u d).available
        assignedVehicle := (applyDriverUpdate u d).assignedVehicle } := by
  obtain ⟨h₁, h₂, h₃, h₄, h₅, h₆, h₇⟩ := h
  simp only [applyDriverUpdate, h₁, h₂, h₃, h₄, h₅, h₆, h₇]

theorem assignDriver_driver_write (drivers : List DriverDoc) (requests : List SnapshotDoc)
    (requestId driverId : String) (requestOk driverOk : Bool) (id : String) (u : DriverUpdate)
    (h : StoreOp.updateDriver id u ∈
      (assignDriver drivers requests requestId driverId requestOk driverOk).writes) :
    u.onlyAvailabilityAndVehicle ∧ u.available = some false := by
  unfold assignDriver at h
  cases hd : drivers.find? fun d => d.id == driverId with
  | none => simp [hd] at h
  | some driver =>
    cases hr : requests.find? fun r => r.id == requestId with
    | none => simp [hd, hr] at h
    | some request =>
      cases requestOk <;> cases driverOk <;> simp [hd, hr] at h <;>
        (obtain ⟨_, rfl⟩ := h; exact ⟨⟨rfl, rfl, rfl, rfl, rfl, rfl, rfl⟩, rfl⟩)

theorem deleteRequestRecord_driver_write (vehicles : Pool) (request : RequestRow)
    (confirmDelete driverOk deleteOk : Bool) (id : String) (u : DriverUpdate)
    (h : StoreOp.updateDriver id u ∈
      (deleteRequestRecord vehicles request confirmDelete driverOk deleteOk).writes) :
    u.onlyAvailabilityAndVehicle ∧ u.available = some true := by
  unfold deleteRequestRecord at h
  cases confirmDelete with
  | false => simp at h
  | true =>
    cases hd : request.data.assignedDriverId with
    | none => simp [hd] at h
    | some driverId =>
      by_cases he : driverId = ""
      · simp [hd, he] at h
      · simp [hd, he] at h
        obtain ⟨_, rfl⟩ := h
        exact ⟨⟨rfl, rfl, rfl, rfl, rfl, rfl, rfl⟩, rfl⟩

/-- C15, as stated: the driver write of `assignDriver` for a request that holds "Ambulance-1"
changes the assignedVehicle field of the driver record, from null to "Ambulance-1", besides the
availability flag. -/
theorem assignDriver_writes_assignedVehicle :
    StoreOp.updateDriver "d2" { available := some false, assignedVehicle := some (some "Ambulance-1") } ∈
        (assignDriver [registeredDriver "d2" "Ambulance"] [acceptedDoc] "r1" "d2" true true).writes ∧
      (registeredDriver "d2" "Ambulance").assignedVehicle = none ∧
      (applyDriverUpdate { available := some false, assignedVehicle := some (some "Ambulance-1") }
        (registeredDriver "d2" "Ambulance")).assignedVehicle = some "Ambulance-1" := by
  decide

/-- C15, amended: every write that `setAvailability`, `assignDriver` or `deleteRequestRecord`
makes to a driver record changes only the availability flag and the assignedVehicle field of
that record (`setAvailability`: the availability flag only) and leaves every other field of the
record as it was. -/
theorem admin_driver_write_frame (driverId : String) (available : Bool)
    (drivers : List DriverDoc) (requests : List SnapshotDoc) (requestId assignedId : String)
    (requestOk driverOk : Bool) (vehicles : Pool) (request : RequestRow)
    (confirmDelete releaseOk deleteOk : Bool) (id : String) (u : DriverUpdate) (d : DriverDoc)
    (hop : StoreOp.updateDriver id u ∈
      setAvailability driverId available ++
        (assignDriver drivers requests requestId assignedId requestOk driverOk).writes ++
        (deleteRequestRecord vehicles request confirmDelete releaseOk deleteOk).writes) :
    applyDriverUpdate u d =
        { d with
          available := (applyDriverUpdate u d).available
          assignedVehicle := (applyDriverUpdate u d).assignedVehicle } ∧
      (StoreOp.updateDriver id u ∈ setAvailability driverId available →
        applyDriverUpdate u d = { d with available := some available }) := by
  constructor
  · apply applyDriverUpdate_frame
    rcases List.mem_append.mp hop with h | h
    · rcases List.mem_append.mp h with h | h
      · simp only [setAvailability, List.mem_singleton, StoreOp.updateDriver.injEq] at h
        obtain ⟨_, rfl⟩ := h
        exact ⟨rfl, rfl, rfl, rfl, rfl, rfl, rfl⟩
      · exact (assignDriver_driver_write _ _ _ _ _ _ _ _ h).1
    · exact (deleteRequestRecord_driver_write _ _ _ _ _ _ _ h).1
  · intro h
    simp only [setAvailability, List.mem_singleton, StoreOp.updateDriver.injEq] at h
    obtain ⟨_, rfl⟩ := h
    simp only [applyDriverUpdate]

/-- C15, amended, at the write that releases the driver "d7" of a deleted request. -/
theorem admin_driver_write_frame_witness :
    applyDriverUpdate { available := some true, assignedVehicle := some none }
          (registeredDriver "d7" "Ambulance") =
        { registeredDriver "d7" "Ambulance" with
          available := (applyDriverUpdate { available := some true, assignedVehicle := some none }
            (registeredDriver "d7" "Ambulance")).available
          assignedVehicle :=
            (applyDriverUpdate { available := some true, assignedVehicle := some none }
              (registeredDriver "d7" "Ambulance")).assignedVehicle } ∧
      (StoreOp.updateDriver "d7" { available := some true, assignedVehicle := some none } ∈
          setAvailability "d1" false →
        applyDriverUpdate { available := some true, assignedVehicle := some none }
          (registeredDriver "d7" "Ambulance") =
            { registeredDriver "d7" "Ambulance" with available := some false }) :=
  admin_driver_write_frame "d1" false [] [] "r1" "d7" true true defaultVehicles
    (assignedRow "r1" "Ambulance-1" "ambulance" (some "d7")) true true true "d7"
    { available := some true, assignedVehicle := some none } (registeredDriver "d7" "Ambulance")
    (by decide)

/-! ## A rejected accepting write -/

theorem acceptPending_docIds (requests : List LocalRequest) (clock : Nat → Nat)
    (writeOk : Nat → Bool) :
    ∀ (all : List LocalRequest) (k : Nat) (prev : List LocalRequest),
      (acceptPending requests clock writeOk k all prev).1.map StoreOp.docId =
        (all.filter fun r => r.status = "Pending").map fun r => r.id := by
  intro all
  induction all with
  | nil => intro k prev; rfl
  | cons r rest ih =>
    intro k prev
    by_cases hr : r.status = "Pending"
    · simp only [acceptPending, hr, if_true, List.map_cons, ih, decide_True, List.filter_cons_of_pos]
      rfl
    · simp only [acceptPending, hr, if_false, ih, decide_False, Bool.false_eq_true,
        not_false_eq_true, List.filter_cons_of_neg]

theorem acceptPending_all_rejected (requests : List LocalRequest) (clock : Nat → Nat) :
    ∀ (all : List LocalRequest) (k : Nat) (prev : List LocalRequest),
      (acceptPending requests clock (fun _ => false) k all prev).2 = prev := by
  intro all
  induction all with
  | nil => intro k prev; rfl
  | cons r rest ih =>
    intro k prev
    by_cases hr : r.status = "Pending"
    · simp only [acceptPending, hr, if_true, handleStatusUpdate, Bool.false_eq_true, if_false, ih]
    · simp only [acceptPending, hr, if_false, ih]

/-- C16: when the accepting write is rejected, `handleStatusUpdate` returns with the local
request list as it was; whatever writes of a notification are rejected, the snapshot handler
issues the accepting write of every pending record of the notification, one for each and in
order; and when all of them are rejected the list is still as it was after the loop. -/
theorem rejected_accept_is_skipped (requests prev : List LocalRequest) (reqId : String)
    (now : Nat) (clock : Nat → Nat) (writeOk : Nat → Bool) (endNow : Nat)
    (docs : List SnapshotDoc) :
    (handleStatusUpdate requests reqId "Accepted" now false prev).requests = prev ∧
      (onSnapshotWith requests clock writeOk endNow docs prev).writes.map StoreOp.docId =
        ((docs.map mapDoc).filter fun r => r.status = "Pending").map (fun r => r.id) ∧
      (acceptPending requests clock (fun _ => false) 0 (docs.map mapDoc) prev).2 = prev :=
  ⟨by simp only [handleStatusUpdate, Bool.false_eq_true, if_false],
    acceptPending_docIds requests clock writeOk (docs.map mapDoc) 0 prev,
    acceptPending_all_rejected requests clock (docs.map mapDoc) 0 prev⟩

/-! ## The countdown -/

/-- C17: for a request with an assignment timestamp of `s > 0` seconds and every clock value,
the countdown is max(0, s * 1000 + 600000 - now); it is never negative and it is 0 exactly when
the clock is at or past 600 seconds after the assignment start; a request without an assignment
timestamp has no countdown. -/
theorem countdown_value (now : Nat) (r : SnapshotDoc) (s : Nat)
    (hs : r.data.vehicleAssignedAt = some s) (hpos : 0 < s) :
    (withCountdown now r).remainingMs = some (max 0 ((s : Int) * 1000 + 600000 - (now : Int))) ∧
      (0 : Int) ≤ max 0 ((s : Int) * 1000 + 600000 - (now : Int)) ∧
      (max 0 ((s : Int) * 1000 + 600000 - (now : Int)) = 0 ↔
        (s : Int) * 1000 + 600000 ≤ (now : Int)) ∧
      ∀ r' : SnapshotDoc, r'.data.vehicleAssignedAt = none →
        (withCountdown now r').remainingMs = none := by
  refine ⟨?_, le_max_left _ _, ?_, ?_⟩
  · have h1 : s ≠ 0 := by omega
    have h2 : s * 1000 ≠ 0 := by omega
    simp only [withCountdown, hs, h1, h2, if_false]
    push_cast
    rfl
  · rw [max_eq_left_iff]
    omega
  · intro r' hr'
    simp only [withCountdown, hr']

/-- C17, at a request assigned 300 seconds before the clock reading. -/
theorem countdown_value_witness :
    (withCountdown 1700000300000 acceptedDoc).remainingMs =
        some (max 0 (((1700000000 : Nat) : Int) * 1000 + 600000 - ((1700000300000 : Nat) : Int))) ∧
      (0 : Int) ≤ max 0 (((1700000000 : Nat) : Int) * 1000 + 600000 - ((1700000300000 : Nat) : Int)) ∧
      (max 0 (((1700000000 : Nat) : Int) * 1000 + 600000 - ((1700000300000 : Nat) : Int)) = 0 ↔
        ((1700000000 : Nat) : Int) * 1000 + 600000 ≤ ((1700000300000 : Nat) : Int)) ∧
      ∀ r' : SnapshotDoc, r'.data.vehicleAssignedAt = none →
        (withCountdown 1700000300000 r').remainingMs = none :=
  countdown_value 1700000300000 acceptedDoc 1700000000 rfl (by decide)

/-! ## Seconds since the last shared location -/

/-- C18: for a fixed `lastSharedAt` that is a date, when the clock has advanced by at least
1000 ms from one recomputation to the next, the seconds since the last update shown by the
driver portal and by the two live-tracking pages, floor((now - lastSharedAt) / 1000), are
strictly greater at the second recomputation. -/
theorem seconds_since_update_increase (ms : Int) (now₁ now₂ : Nat) (h : now₁ + 1000 ≤ now₂) :
    ∃ a b : Int, a < b ∧
      a = ((now₁ : Int) - ms) / 1000 ∧ b = ((now₂ : Int) - ms) / 1000 ∧
      lastUpdatedSeconds (some (DateText.time ms)) now₁ = some a ∧
      lastUpdatedSeconds (some (DateText.time ms)) now₂ = some b ∧
      lastUpdatedSec (some (DateText.time ms)) now₁ = some (some a) ∧
      lastUpdatedSec (some (DateText.time ms)) now₂ = some (some b) := by
  refine ⟨_, _, ?_, rfl, rfl, rfl, rfl, rfl, rfl⟩
  omega

/-- C18, at two recomputations one second apart. -/
theorem seconds_since_update_increase_witness :
    ∃ a b : Int, a < b ∧
      a = (((1700000030000 : Nat) : Int) - 1700000000500) / 1000 ∧
      b = (((1700000031000 : Nat) : Int) - 1700000000500) / 1000 ∧
      lastUpdatedSeconds (some (DateText.time 1700000000500)) 1700000030000 = some a ∧
      lastUpdatedSeconds (some (DateText.time 1700000000500)) 1700000031000 = some b ∧
      lastUpdatedSec (some (DateText.time 1700000000500)) 1700000030000 = some (some a) ∧
      lastUpdatedSec (some (DateText.time 1700000000500)) 1700000031000 = some (some b) :=
  seconds_since_update_increase 1700000000500 1700000030000 1700000031000 (by decide)

/-! ## The stars of a feedback card -/

/-- The clamped rating of the code is a number `m / 2 ^ k` between 0 and 5, equal to the number
min(5, max(0, r)) of the specification. -/
theorem clampRating_spec (rating : Option JsNumber) :
    ∃ (m : Int) (k : Nat), clampRating rating = JsNumber.finite m k ∧ 0 ≤ m ∧ m ≤ 5 * 2 ^ k ∧
      (m : ℚ) / 2 ^ k = clampedRating rating := by
  have hpow : ∀ k : Nat, (0 : ℚ) < 2 ^ k := fun k => by positivity
  have hpowz : ∀ k : Nat, (0 : Int) < 2 ^ k := fun k => by positivity
  rcases rating with _ | _ | _ | _ | ⟨m, k⟩
  · exact ⟨0, 0, rfl, by norm_num, by norm_num, by norm_num [clampedRating]⟩
  · exact ⟨0, 0, rfl, by norm_num, by norm_num, by norm_num [clampedRating]⟩
  · exact ⟨5, 0, rfl, by norm_num, by norm_num, by norm_num [clampedRating]⟩
  · exact ⟨0, 0, rfl, by norm_num, by norm_num, by norm_num [clampedRating]⟩
  · by_cases h0 : m = 0
    · subst h0
      refine ⟨0, 0, by simp [clampRating, ratingOrZero, mathMin5, mathMax0], by norm_num,
        by norm_num, by norm_num [clampedRating]⟩
    · by_cases h5 : 5 * 2 ^ k ≤ m
      · refine ⟨5, 0, by simp [clampRating, ratingOrZero, mathMin5, mathMax0, h0, h5],
          by norm_num, by norm_num, ?_⟩
        have hq : (5 : ℚ) ≤ (m : ℚ) / 2 ^ k := by
          rw [le_div_iff₀ (hpow k)]
          exact_mod_cast h5
        simp only [clampedRating]
        rw [max_eq_right (le_trans (by norm_num) hq), min_eq_left hq]
        norm_num
      · by_cases hneg : m ≤ 0
        · refine ⟨0, 0, by simp [clampRating, ratingOrZero, mathMin5, mathMax0, h0, h5, hneg],
            by norm_num, by norm_num, ?_⟩
          have hq : (m : ℚ) / 2 ^ k ≤ 0 :=
            div_nonpos_of_nonpos_of_nonneg (by exact_mod_cast hneg) (hpow k).le
          simp only [clampedRating]
          rw [max_eq_left hq]
          norm_num
        · refine ⟨m, k, by simp [clampRating, ratingOrZero, mathMin5, mathMax0, h0, h5, hneg],
            by omega, by omega, ?_⟩
          have hq0 : (0 : ℚ) ≤ (m : ℚ) / 2 ^ k :=
            div_nonneg (by exact_mod_cast (not_le.mp hneg).le) (hpow k).le
          have hq5 : (m : ℚ) / 2 ^ k ≤ 5 := by
            rw [div_le_iff₀ (hpow k)]
            exact_mod_cast (not_le.mp h5).le
          simp only [clampedRating]
          rw [max_eq_right hq0, min_eq_right hq5]

/-- The star line for a clamped rating `m / 2 ^ k`: both `repeat` calls return. -/
theorem stars_of_clampRating (rating : Option JsNumber) (m : Int) (k : Nat)
    (hc : clampRating rating = JsNumber.finite m k) (h0 : 0 ≤ m) (h5 : m ≤ 5 * 2 ^ k) :
    stars rating =
      some ⟨List.replicate (m / 2 ^ k).toNat '★' ++
        List.replicate ((5 * 2 ^ k - m) / 2 ^ k).toNat '☆'⟩ := by
  have hpowz : (0 : Int) < 2 ^ k := by positivity
  have h1 : ¬ (m / 2 ^ k < 0) := not_lt.mpr (Int.ediv_nonneg h0 hpowz.le)
  have h2 : ¬ ((5 * 2 ^ k - m) / 2 ^ k < 0) :=
    not_lt.mpr (Int.ediv_nonneg (by omega) hpowz.le)
  simp only [stars, hc, jsRepeat, JsNumber.toIntegerOrInfinity, fiveMinus,
    Int.tdiv_eq_ediv h0 hpowz.le, Int.tdiv_eq_ediv (show (0 : Int) ≤ 5 * 2 ^ k - m by omega)
      hpowz.le, h1, h2, if_false]

/-- C19, as stated: for the stored rating 3.5 the card renders three filled stars, while
min(5, max(0, 3.5)) is 3.5. -/
theorem fractional_rating_filled_stars :
    stars (some (JsNumber.finite 7 1)) = some "★★★☆" ∧
      clampedRating (some (JsNumber.finite 7 1)) = 7 / 2 ∧
      ((3 : ℕ) : ℚ) ≠ clampedRating (some (JsNumber.finite 7 1)) := by
  have h : clampedRating (some (JsNumber.finite 7 1)) = 7 / 2 := by norm_num [clampedRating]
  refine ⟨by decide, h, ?_⟩
  rw [h]
  norm_num

/-- C19, amended: for every stored rating value r, inside or outside [1,5], whole or
fractional, the star line is rendered and it starts with exactly floor(min(5, max(0, r)))
filled stars, followed by unfilled stars only; a rating that is missing or not a number counts
as 0. -/
theorem filled_stars_floor (rating : Option JsNumber) :
    ∃ n u : Nat, stars rating = some ⟨List.replicate n '★' ++ List.replicate u '☆'⟩ ∧
      (n : Int) = ⌊clampedRating rating⌋ := by
  obtain ⟨m, k, hc, h0, h5, hq⟩ := clampRating_spec rating
  have hpowz : (0 : Int) < 2 ^ k := by positivity
  refine ⟨_, _, stars_of_clampRating rating m k hc h0 h5, ?_⟩
  rw [Int.toNat_of_nonneg (Int.ediv_nonneg h0 hpowz.le), ← hq]
  have hcast : (m : ℚ) / 2 ^ k = (m : ℚ) / ((2 ^ k : ℕ) : ℚ) := by push_cast; rfl
  rw [hcast, Rat.floor_intCast_div_natCast]
  push_cast
  rfl

/-- C20, as stated: for the stored rating 2.25 the card renders two filled and two unfilled
stars, four star characters in all. -/
theorem fractional_rating_four_stars :
    stars (some (JsNumber.finite 9 2)) = some "★★☆☆" ∧
      ("★★☆☆" : String).length = 4 ∧
      ∀ n : Nat, stars (some (JsNumber.finite 9 2)) ≠
        some ⟨List.replicate n '★' ++ List.replicate (5 - n) '☆'⟩ := by
  refine ⟨by decide, by decide, ?_⟩
  intro n h
  have hs : stars (some (JsNumber.finite 9 2)) = some "★★☆☆" := by decide
  rw [hs] at h
  have hl := congrArg (fun o => o.map fun t => t.data.length) h
  simp only [Option.map_some', Option.some.injEq, List.length_append, List.length_replicate] at hl
  have h4 : ("★★☆☆" : String).data.length = 4 := by decide
  rw [h4] at hl
  have hn : n ≤ 4 := by omega
  interval_cases n <;> revert h <;> decide

/-- C20, amended: for every stored rating value whose clamped value min(5, max(0, r)) is a
whole number (every whole rating, every rating at or outside the bounds 0 and 5, a rating that
is missing or not a number), the star line has exactly five star characters, `n` filled ones
followed by `5 - n` unfilled ones. -/
theorem five_stars_for_whole_rating (rating : Option JsNumber)
    (h : ∃ j : Nat, clampedRating rating = (j : ℚ)) :
    ∃ n : Nat, n ≤ 5 ∧ (n : ℚ) = clampedRating rating ∧
      stars rating = some ⟨List.replicate n '★' ++ List.replicate (5 - n) '☆'⟩ := by
  obtain ⟨j, hj⟩ := h
  obtain ⟨m, k, hc, h0, h5, hq⟩ := clampRating_spec rating
  have hpow : (0 : ℚ) < 2 ^ k := by positivity
  have hpowz : (0 : Int) < 2 ^ k := by positivity
  have hm : m = (j : Int) * 2 ^ k := by
    have : (m : ℚ) = (j : ℚ) * 2 ^ k := by
      rw [← hj, ← hq, div_mul_cancel₀ _ hpow.ne']
    exact_mod_cast this
  have hj5 : j ≤ 5 := by
    have : (j : Int) * 2 ^ k ≤ 5 * 2 ^ k := hm ▸ h5
    have := le_of_mul_le_mul_right this hpowz
    omega
  refine ⟨j, hj5, hj.symm, ?_⟩
  rw [stars_of_clampRating rating m k hc h0 h5, hm]
  have e1 : (j : Int) * 2 ^ k / 2 ^ k = j := Int.mul_ediv_cancel _ hpowz.ne'
  have e2 : (5 * 2 ^ k - (j : Int) * 2 ^ k) / 2 ^ k = ((5 - j : Nat) : Int) := by
    have : (5 : Int) * 2 ^ k - (j : Int) * 2 ^ k = ((5 - j : Nat) : Int) * 2 ^ k := by
      push_cast [hj5]
      ring
    rw [this, Int.mul_ediv_cancel _ hpowz.ne']
  rw [e1, e2]
  simp only [Int.toNat_ofNat]

/-- C20, amended, at the stored rating 4. -/
theorem five_stars_for_whole_rating_witness :
    ∃ n : Nat, n ≤ 5 ∧ (n : ℚ) = clampedRating (some (JsNumber.finite 4 0)) ∧
      stars (some (JsNumber.finite 4 0)) =
        some ⟨List.replicate n '★' ++ List.replicate (5 - n) '☆'⟩ :=
  five_stars_for_whole_rating (some (JsNumber.finite 4 0))
    ⟨4, by norm_num [clampedRating]⟩

/-! ## The driver portal -/

/-- C21: a run of the automatic location updater issues a write only when the driver record is
loaded, liveShare is true, status is "active" and the effect has not been cleaned up, neither
when the run starts nor when the position arrives; the write is then the location write to the
driver's own record. In every other state, and after the cleanup, a run issues no write and
leaves the state as it is. -/
theorem updater_writes_only_when_sharing (s : PortalState)
    (stoppedAtRun stoppedAtPosition : Bool) (geolocation : Geolocation) (now : Int)
    (writeOk : Bool) :
    ((updater s stoppedAtRun stoppedAtPosition geolocation now writeOk).writes ≠ [] →
        truthy s.driverDocId = true ∧
        (∃ d, s.driver = some d ∧ d.liveShare = some true ∧ d.status = some "active") ∧
        stoppedAtRun = false ∧ stoppedAtPosition = false ∧
        ∃ coords, geolocation = Geolocation.position coords ∧
          (updater s stoppedAtRun stoppedAtPosition geolocation now writeOk).writes =
            [StoreOp.updateDriver (orStr s.driverDocId "")
              { available := none
                assignedVehicle := none
                location := some coords
                lastSharedAt := some (DateText.time now) }]) ∧
      (stoppedAtRun = true ∨ stoppedAtPosition = true →
        (updater s stoppedAtRun stoppedAtPosition geolocation now writeOk).writes = []) ∧
      (updater s stoppedAtRun stoppedAtPosition geolocation now writeOk).state = s := by
  unfold updater
  rcases s with ⟨driver, driverDocId, form, note⟩
  by_cases hid : truthy driverDocId = true
  · cases stoppedAtRun
    · cases driver with
      | none => simp [hid]
      | some d =>
        by_cases hl : d.liveShare = some true
        · by_cases hs : d.status = some "active"
          · cases geolocation with
            | unsupported => simp [hid, hl, hs]
            | failure => simp [hid, hl, hs]
            | position coords => cases stoppedAtPosition <;> simp [hid, hl, hs]
          · simp [hid, hl, hs]
        · simp [hid, hl]
    · simp [hid]
  · simp [hid]

/-- C21, at a driver on duty who shares the location. -/
theorem updater_writes_only_when_sharing_witness :
    ((updater sharingPortal false false
          (Geolocation.position ⟨JsNumber.finite 13 0, JsNumber.finite 80 0⟩) 1700000000000
          true).writes ≠ [] →
        truthy sharingPortal.driverDocId = true ∧
        (∃ d, sharingPortal.driver = some d ∧ d.liveShare = some true ∧
          d.status = some "active") ∧
        false = false ∧ false = false ∧
        ∃ coords,
          Geolocation.position ⟨JsNumber.finite 13 0, JsNumber.finite 80 0⟩ =
            Geolocation.position coords ∧
          (updater sharingPortal false false
            (Geolocation.position ⟨JsNumber.finite 13 0, JsNumber.finite 80 0⟩) 1700000000000
            true).writes =
            [StoreOp.updateDriver (orStr sharingPortal.driverDocId "")
              { available := none
                assignedVehicle := none
                location := some coords
                lastSharedAt := some (DateText.time 1700000000000) }]) ∧
      (false = true ∨ false = true →
        (updater sharingPortal false false
          (Geolocation.position ⟨JsNumber.finite 13 0, JsNumber.finite 80 0⟩) 1700000000000
          true).writes = []) ∧
      (updater sharingPortal false false
        (Geolocation.position ⟨JsNumber.finite 13 0, JsNumber.finite 80 0⟩) 1700000000000
        true).state = sharingPortal :=
  updater_writes_only_when_sharing sharingPortal false false
    (Geolocation.position ⟨JsNumber.finite 13 0, JsNumber.finite 80 0⟩) 1700000000000 true

/-- C22: an action taken before its record has loaded is cut short. `assignDriver` with a
driver id or a request id that is not in the loaded lists issues no write and shows a notice
(it sets no state at all); `setDutyStatus` and `saveProfile` without a loaded driver document
id issue no write, set the notice "Driver record not loaded yet." and leave the rest of the
state as it is. -/
theorem unloaded_record_short_circuits (drivers : List DriverDoc) (requests : List SnapshotDoc)
    (requestId driverId : String) (requestOk driverOk writeOk : Bool) (s : PortalState)
    (newStatus : String)
    (hmissing : (drivers.find? fun d => d.id == driverId) = none ∨
      (requests.find? fun r => r.id == requestId) = none)
    (hunloaded : truthy s.driverDocId = false) :
    ((assignDriver drivers requests requestId driverId requestOk driverOk).writes = [] ∧
        (assignDriver drivers requests requestId driverId requestOk driverOk).accepted = [] ∧
        ((assignDriver drivers requests requestId driverId requestOk driverOk).alert =
            "Driver not found" ∨
          (assignDriver drivers requests requestId driverId requestOk driverOk).alert =
            "Request not found")) ∧
      ((setDutyStatus s newStatus writeOk).writes = [] ∧
        (setDutyStatus s newStatus writeOk).state =
          { s with notification := some ⟨"Error", "Driver record not loaded yet.", "error"⟩ }) ∧
      ((saveProfile s writeOk).writes = [] ∧
        (saveProfile s writeOk).state =
          { s with notification := some ⟨"Error", "Driver record not loaded yet.", "error"⟩ }) := by
  refine ⟨?_, ?_, ?_⟩
  · unfold assignDriver
    cases hd : drivers.find? fun d => d.id == driverId with
    | none => simp
    | some driver =>
      rcases hmissing with h | h
      · rw [hd] at h; cases h
      · simp [h]
  · simp [setDutyStatus, hunloaded]
  · simp [saveProfile, hunloaded]

/-- C22, at a board whose driver list has not loaded and a portal without a driver record. -/
theorem unloaded_record_short_circuits_witness :
    ((assignDriver [] [acceptedDoc] "r1" "d2" true true).writes = [] ∧
        (assignDriver [] [acceptedDoc] "r1" "d2" true true).accepted = [] ∧
        ((assignDriver [] [acceptedDoc] "r1" "d2" true true).alert = "Driver not found" ∨
          (assignDriver [] [acceptedDoc] "r1" "d2" true true).alert = "Request not found")) ∧
      ((setDutyStatus emptyPortal "offline" true).writes = [] ∧
        (setDutyStatus emptyPortal "offline" true).state =
          { emptyPortal with
            notification := some ⟨"Error", "Driver record not loaded yet.", "error"⟩ }) ∧
      ((saveProfile emptyPortal true).writes = [] ∧
        (saveProfile emptyPortal true).state =
          { emptyPortal with
            notification := some ⟨"Error", "Driver record not loaded yet.", "error"⟩ }) :=
  unloaded_record_short_circuits [] [acceptedDoc] "r1" "d2" true true true emptyPortal "offline"
    (Or.inl rfl) (by decide)

/-! ## normalizeType -/

theorem isAlnum_iff (c : Char) :
    (c.isLower || c.isDigit) = decide (('a' ≤ c ∧ c ≤ 'z') ∨ ('0' ≤ c ∧ c ≤ '9')) := by
  simp only [Char.isLower, Char.isDigit]
  rw [Bool.eq_iff_iff]
  simp only [Bool.or_eq_true, Bool.and_eq_true, decide_eq_true_eq]
  rfl

theorem toNat_lt_of_isAlnum (c : Char) (h : (c.isLower || c.isDigit) = true) :
    c.toNat < 128 := by
  simp only [Char.isLower, Char.isDigit, Bool.or_eq_true, Bool.and_eq_true,
    decide_eq_true_eq] at h
  have hle : ∀ a b : UInt32, a ≤ b → a.toNat ≤ b.toNat := fun a b h => h
  rcases h with ⟨_, h⟩ | ⟨_, h⟩
  · have := hle _ _ h
    have h2 : (122 : UInt32).toNat = 122 := by decide
    simp only [Char.toNat]
    omega
  · have := hle _ _ h
    have h2 : (57 : UInt32).toNat = 57 := by decide
    simp only [Char.toNat]
    omega

theorem lowerChar_ascii_table : ∀ n, n < 128 →
    ((Char.ofNat n).isLower || (Char.ofNat n).isDigit) = true →
    lowerChar (Char.ofNat n) = [Char.ofNat n] := by
  decide

/-- Lower-casing keeps a lower-case letter or a digit. -/
theorem lowerChar_of_isAlnum (c : Char) (h : (c.isLower || c.isDigit) = true) :
    lowerChar c = [c] := by
  have := lowerChar_ascii_table c.toNat (toNat_lt_of_isAlnum c h)
  rw [Char.ofNat_toNat] at this
  exact this h

theorem flatMap_lowerChar_of_isAlnum (l : List Char)
    (h : ∀ c ∈ l, (c.isLower || c.isDigit) = true) : l.flatMap lowerChar = l := by
  induction l with
  | nil => rfl
  | cons c rest ih =>
    rw [List.flatMap_cons, lowerChar_of_isAlnum c (h c (List.mem_cons_self _ _)),
      ih fun x hx => h x (List.mem_cons_of_mem _ hx)]
    rfl

/-- The function `normalizeType` gives back a normalized text. -/
theorem normalizeType_idem (raw : Option String) :
    normalizeType (some (normalizeType raw)) = normalizeType raw := by
  cases raw with
  | none => decide
  | some s =>
    have hall : ∀ c ∈ (toLowerCase s).toList.filter fun c => c.isLower || c.isDigit,
        (c.isLower || c.isDigit) = true := fun c hc => (List.mem_filter.mp hc).2
    simp only [normalizeType, toLowerCase, String.toList] at hall ⊢
    rw [flatMap_lowerChar_of_isAlnum _ hall, List.filter_filter]
    simp only [Bool.and_self]

/-- C23: `normalizeType` returns the empty string for a missing value and otherwise the
lower-cased text without the characters outside a-z and 0-9; every character of the result is
in a-z or 0-9; "Fire Engine", "fire-engine" and "FireEngine" all normalize to "fireengine"; and
`normalizeType` is idempotent. -/
theorem normalizeType_spec (raw : Option String) :
    normalizeType none = "" ∧
      (∀ s : String, normalizeType (some s) =
        ⟨(toLowerCase s).toList.filter fun c =>
          decide (('a' ≤ c ∧ c ≤ 'z') ∨ ('0' ≤ c ∧ c ≤ '9'))⟩) ∧
      (∀ c ∈ (normalizeType raw).toList, ('a' ≤ c ∧ c ≤ 'z') ∨ ('0' ≤ c ∧ c ≤ '9')) ∧
      normalizeType (some "Fire Engine") = "fireengine" ∧
      normalizeType (some "fire-engine") = "fireengine" ∧
      normalizeType (some "FireEngine") = "fireengine" ∧
      normalizeType (some (normalizeType raw)) = normalizeType raw := by
  refine ⟨rfl, ?_, ?_, by decide, by decide, by decide, normalizeType_idem raw⟩
  · intro s
    simp only [normalizeType, isAlnum_iff]
  · intro c hc
    cases raw with
    | none => simp [normalizeType] at hc
    | some s =>
      simp only [normalizeType, String.toList, List.mem_filter, isAlnum_iff,
        decide_eq_true_eq] at hc
      exact hc.2

/-! ## A rejected release of the driver -/

/-- C24: when the write that releases the bound driver is rejected, a confirmed
`deleteRequestRecord` logs the failure and goes on: the pool is the one of a deletion whose
release was accepted, the unit named by the request is marked available in its class, and the
deletion of the request document is issued after the release. -/
theorem rejected_release_is_not_fatal (vehicles : Pool) (request : RequestRow) (deleteOk : Bool)
    (driverId assignedVehicleId : String)
    (hdriver : request.data.assignedDriverId = some driverId) (hne : driverId ≠ "")
    (hvehicle : request.data.assignedVehicle = some assignedVehicleId)
    (hvne : assignedVehicleId ≠ "")
    (htype : normalizeType (some (orStr request.data.assignedVehicleType
      (orStr request.data.vehicle (orStr request.data.vehicleType "")))) ≠ "") :
    (deleteRequestRecord vehicles request true false deleteOk).writes =
        [StoreOp.updateDriver driverId { available := some true, assignedVehicle := some none },
          StoreOp.deleteRequest request.id] ∧
      "Failed to release driver:" ∈ (deleteRequestRecord vehicles request true false deleteOk).log ∧
      (deleteRequestRecord vehicles request true false deleteOk).vehicles =
        (deleteRequestRecord vehicles request true true deleteOk).vehicles ∧
      (deleteRequestRecord vehicles request true false deleteOk).vehicles
          (normalizeType (some (orStr request.data.assignedVehicleType
            (orStr request.data.vehicle (orStr request.data.vehicleType ""))))) =
        some (((vehicles (normalizeType (some (orStr request.data.assignedVehicleType
          (orStr request.data.vehicle (orStr request.data.vehicleType "")))))).getD []).map
            fun v => if v.id = assignedVehicleId then { v with available := true } else v) := by
  refine ⟨by simp [deleteRequestRecord, hdriver, hne], by simp [deleteRequestRecord, hdriver, hne],
    ?_, ?_⟩
  · rw [deleteRequestRecord_vehicles vehicles request false deleteOk assignedVehicleId hvehicle
      hvne htype,
      deleteRequestRecord_vehicles vehicles request true deleteOk assignedVehicleId hvehicle
      hvne htype]
  · rw [deleteRequestRecord_vehicles vehicles request false deleteOk assignedVehicleId hvehicle
      hvne htype]
    simp only [if_true]

/-- C24, at a request bound to the driver "d7" that holds "Ambulance-1". -/
theorem rejected_release_is_not_fatal_witness :
    (deleteRequestRecord (takeAmbulances 1)
          (assignedRow "r1" "Ambulance-1" "ambulance" (some "d7")) true false true).writes =
        [StoreOp.updateDriver "d7" { available := some true, assignedVehicle := some none },
          StoreOp.deleteRequest (assignedRow "r1" "Ambulance-1" "ambulance" (some "d7")).id] ∧
      "Failed to release driver:" ∈
        (deleteRequestRecord (takeAmbulances 1)
          (assignedRow "r1" "Ambulance-1" "ambulance" (some "d7")) true false true).log ∧
      (deleteRequestRecord (takeAmbulances 1)
          (assignedRow "r1" "Ambulance-1" "ambulance" (some "d7")) true false true).vehicles =
        (deleteRequestRecord (takeAmbulances 1)
          (assignedRow "r1" "Ambulance-1" "ambulance" (some "d7")) true true true).vehicles ∧
      (deleteRequestRecord (takeAmbulances 1)
          (assignedRow "r1" "Ambulance-1" "ambulance" (some "d7")) true false true).vehicles
          (normalizeType (some (orStr
            (assignedRow "r1" "Ambulance-1" "ambulance" (some "d7")).data.assignedVehicleType
            (orStr (assignedRow "r1" "Ambulance-1" "ambulance" (some "d7")).data.vehicle
              (orStr (assignedRow "r1" "Ambulance-1" "ambulance" (some "d7")).data.vehicleType
                ""))))) =
        some (((takeAmbulances 1 (normalizeType (some (orStr
            (assignedRow "r1" "Ambulance-1" "ambulance" (some "d7")).data.assignedVehicleType
            (orStr (assignedRow "r1" "Ambulance-1" "ambulance" (some "d7")).data.vehicle
              (orStr (assignedRow "r1" "Ambulance-1" "ambulance" (some "d7")).data.vehicleType
                "")))))).getD []).map
            fun v => if v.id = "Ambulance-1" then { v with available := true } else v) :=
  rejected_release_is_not_fatal (takeAmbulances 1)
    (assignedRow "r1" "Ambulance-1" "ambulance" (some "d7")) true "d7" "Ambulance-1" rfl
    (by decide) rfl (by decide) (by decide)

/-! ## The stamped unit and the default pool -/

theorem vehicleTypeOf_cases (src : String) :
    vehicleTypeOf src = "ambulance" ∨ vehicleTypeOf src = "fireengine" ∨
      vehicleTypeOf src = "policevan" := by
  unfold vehicleTypeOf
  split_ifs <;> simp

theorem vehicleId_in_default_pool : ∀ k, k < 10 →
    ∀ vehicleType ∈ ["ambulance", "fireengine", "policevan"],
      ({ id := vehicleId vehicleType ((k : Nat) + 1 : Int), available := true } : Vehicle) ∈
        (defaultVehicles vehicleType).getD [] := by
  decide

/-- C26: for every clock value with floor(epochMillis / 60000) < 2^31, every captured request
list (so every situation text) and every request id, the assignedVehicle that the accepting
write stamps is the id of a unit of the default pool of the stamped assignedVehicleType, and
its unit number lies between 1 and 10. -/
theorem stamped_unit_in_default_pool (requests : List LocalRequest) (reqId : String) (now : Nat)
    (writeOk : Bool) (prev : List LocalRequest) (h : now / 60000 < 2147483648) :
    ∃ (u : RequestUpdate) (vehicleType : String) (units : List Vehicle) (unit : Vehicle)
      (n : Nat),
      (handleStatusUpdate requests reqId "Accepted" now writeOk prev).write =
        StoreOp.updateRequest reqId u ∧
      u.assignedVehicleType = some vehicleType ∧ u.assignedVehicle = some unit.id ∧
      defaultVehicles vehicleType = some units ∧ unit ∈ units ∧ units.length = 10 ∧
      1 ≤ n ∧ n ≤ 10 ∧ unit.id = unitLabel vehicleType ++ toString n := by
  have hk : now / 60000 % 10 < 10 := Nat.mod_lt _ (by decide)
  have hmem : vehicleTypeOf (typeSrc requests reqId) ∈ ["ambulance", "fireengine", "policevan"] := by
    rcases vehicleTypeOf_cases (typeSrc requests reqId) with h | h | h <;> simp [h]
  have hunit := vehicleId_in_default_pool _ hk _ hmem
  have hslot : slot now + 1 = ((now / 60000 % 10 : Nat) : Int) + 1 := by
    rw [slot_of_lt now h]
  cases hd : defaultVehicles (vehicleTypeOf (typeSrc requests reqId)) with
  | none => rw [hd] at hunit; simp at hunit
  | some units =>
    rw [hd, Option.getD_some] at hunit
    have hlen : units.length = 10 := by
      rcases vehicleTypeOf_cases (typeSrc requests reqId) with h | h | h <;>
        (rw [h] at hd; revert hd; intro hd
         have := congrArg (fun o => o.map List.length) hd
         simpa [defaultVehicles, unitsOf] using this.symm)
    refine ⟨_, _, units, _, now / 60000 % 10 + 1, rfl, ?_, ?_, hd, hunit, hlen, by omega,
      by omega, ?_⟩
    · rw [statusUpdate_accepted]; rfl
    · rw [statusUpdate_accepted]
      simp only [acceptedWith, hslot]
    · simp only [vehicleId]
      rfl

/-- C26, at a clock value of November 2023. -/
theorem stamped_unit_in_default_pool_witness :
    ∃ (u : RequestUpdate) (vehicleType : String) (units : List Vehicle) (unit : Vehicle)
      (n : Nat),
      (handleStatusUpdate [mapDoc (pendingDoc "r1" "fire in kitchen")] "r1" "Accepted"
        1700000000000 true []).write = StoreOp.updateRequest "r1" u ∧
      u.assignedVehicleType = some vehicleType ∧ u.assignedVehicle = some unit.id ∧
      defaultVehicles vehicleType = some units ∧ unit ∈ units ∧ units.length = 10 ∧
      1 ≤ n ∧ n ≤ 10 ∧ unit.id = unitLabel vehicleType ++ toString n :=
  stamped_unit_in_default_pool [mapDoc (pendingDoc "r1" "fire in kitchen")] "r1" 1700000000000
    true [] (by decide)

/-! ## Assigning and deleting -/

theorem requestedType_ne_empty (request : RequestRow) : requestedType request ≠ "" :=
  orStr_some_ne_empty _ _ (by decide)

theorem normalizeType_requestedType (request : RequestRow) :
    normalizeType (some (requestedType request)) = requestedType request := by
  unfold requestedType
  simp only [orStr]
  split_ifs with h
  · decide
  · exact normalizeType_idem _

theorem eq_of_id_eq_of_nodup (units : List Vehicle) (h : (units.map Vehicle.id).Nodup)
    (v w : Vehicle) (hv : v ∈ units) (hw : w ∈ units) (hid : v.id = w.id) : v = w :=
  List.inj_on_of_nodup_map h hv hw hid

/-- C27: in every pool state of a session in which the class of the request has a free unit,
`assignVehicle` followed by a confirmed `deleteRequestRecord` of a request that carries the
assignedVehicle and the assignedVehicleType that `assignVehicle` wrote gives back exactly the
pool from before the assignment. -/
theorem assign_then_delete_restores (vehicles : Pool) (hreach : Reachable vehicles)
    (request deleted : RequestRow) (writeOk driverOk deleteOk : Bool) (units : List Vehicle)
    (u : RequestUpdate)
    (hclass : vehicles (requestedType request) = some units)
    (hfree : ∃ v ∈ units, v.available = true)
    (hwrite : (assignVehicle vehicles request writeOk).writes =
      [StoreOp.updateRequest request.id u])
    (hvehicle : deleted.data.assignedVehicle = u.assignedVehicle)
    (htype : deleted.data.assignedVehicleType = u.assignedVehicleType) :
    (deleteRequestRecord (assignVehicle vehicles request writeOk).vehicles deleted true driverOk
      deleteOk).vehicles = vehicles := by
  obtain ⟨w, hw, hwa⟩ := hfree
  cases hfind : units.find? fun v => v.available with
  | none =>
    rw [List.find?_eq_none] at hfind
    exact absurd hwa (hfind w hw)
  | some unit =>
    have havail : unit.available = true := List.find?_some hfind
    have hunit : unit ∈ units := List.mem_of_find?_eq_some hfind
    have hbind : ((vehicles (requestedType request)).bind fun units =>
        units.find? fun v => v.available) = some unit := by
      rw [hclass]; exact hfind
    obtain ⟨hv, hwrites⟩ := assignVehicle_some vehicles request writeOk unit hbind
    rw [hwrites] at hwrite
    simp only [List.cons.injEq, StoreOp.updateRequest.injEq, true_and, and_true] at hwrite
    subst hwrite
    simp only at hvehicle htype
    have hids : units.map Vehicle.id = unitIds defaultVehicles (requestedType request) := by
      rw [← hreach.unitIds_eq, unitIds, hclass, Option.getD_some]
    have hnodup : (units.map Vehicle.id).Nodup := hids ▸ unitIds_default_nodup _
    have hidne : unit.id ≠ "" := fun h =>
      unitIds_default_ne_empty _ (hids ▸ h ▸ List.mem_map_of_mem Vehicle.id hunit)
    have hraw : orStr deleted.data.assignedVehicleType
        (orStr deleted.data.vehicle (orStr deleted.data.vehicleType "")) =
        requestedType request := by
      rw [htype]
      exact orStr_some_of_ne_empty _ _ (requestedType_ne_empty request)
    have hnorm : normalizeType (some (orStr deleted.data.assignedVehicleType
        (orStr deleted.data.vehicle (orStr deleted.data.vehicleType "")))) =
        requestedType request := by
      rw [hraw, normalizeType_requestedType]
    rw [deleteRequestRecord_vehicles _ deleted driverOk deleteOk unit.id hvehicle hidne
      (by rw [hnorm]; exact requestedType_ne_empty request), hnorm, hv]
    funext key
    by_cases hk : key = requestedType request
    · subst hk
      simp only [if_true, hclass, Option.map_some', Option.getD_some, List.map_map]
      congr 1
      refine (List.map_congr_left ?_).trans (List.map_id _)
      intro v hvm
      simp only [Function.comp, id]
      by_cases hvid : v.id = unit.id
      · have : v = unit := eq_of_id_eq_of_nodup units hnodup v unit hvm hunit hvid
        subst this
        simp only [if_true]
        cases v
        simp only at havail
        simp [havail]
      · simp only [hvid, if_false]
    · simp only [hk, if_false]

/-- C27, at the default pool and a request that names no type. -/
theorem assign_then_delete_restores_witness :
    (deleteRequestRecord
      (assignVehicle defaultVehicles (withCountdown 1700000300000 (pendingDoc "r1" "chest pain"))
        true).vehicles
      (assignedRow "r1" "Ambulance-1" "ambulance" none) true true true).vehicles =
        defaultVehicles :=
  assign_then_delete_restores defaultVehicles Reachable.default
    (withCountdown 1700000300000 (pendingDoc "r1" "chest pain"))
    (assignedRow "r1" "Ambulance-1" "ambulance" none) true true true (unitsOf "Ambulance-")
    (assignedWith "Ambulance-1" "ambulance") (by decide) (by decide) (by decide) (by decide)
    (by decide)

/-! ## The accepted-requests list -/

/-- C25: for the snapshot of a request of 14 November 2023 22:13:20, a request without a
timestamp and a request created ten minutes after the first, in this order, the page keeps the
order of the snapshot: of the records that carry a timestamp the older one comes first. -/
theorem accepted_requests_not_newest_first :
    acceptedRequests
        [timedDoc "a" (some 1700000000), timedDoc "b" none, timedDoc "c" (some 1700000600)] =
      [timedDoc "a" (some 1700000000), timedDoc "b" none, timedDoc "c" (some 1700000600)] ∧
      (acceptedRequests
        [timedDoc "a" (some 1700000000), timedDoc "b" none,
          timedDoc "c" (some 1700000600)]).filterMap (fun r => r.data.timestamp) =
        [1700000000, 1700000600] := by
  decide

/-- Without the record that has no timestamp the same two requests are put newest first. -/
theorem accepted_requests_with_timestamps :
    acceptedRequests [timedDoc "a" (some 1700000000), timedDoc "c" (some 1700000600)] =
      [timedDoc "c" (some 1700000600), timedDoc "a" (some 1700000000)] := by
  decide

/-! ## Current assignment and history -/

theorem insertFromRight_perm {α : Type} (compare : α → α → Int) (x : α) (front : List α) :
    (insertFromRight compare x front).Perm (x :: front) := by
  induction front with
  | nil => exact List.Perm.refl _
  | cons y rest ih =>
    simp only [insertFromRight]
    split_ifs
    · exact ((List.Perm.cons y ih).trans (List.Perm.swap x y rest))
    · exact List.Perm.refl _

theorem foldl_insertFromRight_perm {α : Type} (compare : α → α → Int) (l : List α) :
    ∀ sorted : List α,
      (l.foldl (fun sorted x => insertFromRight compare x sorted) sorted).Perm (l ++ sorted) := by
  induction l with
  | nil => intro sorted; exact List.Perm.refl _
  | cons x rest ih =>
    intro sorted
    simp only [List.foldl_cons]
    refine (ih _).trans ?_
    refine (List.Perm.append_left rest (insertFromRight_perm compare x sorted)).trans ?_
    exact List.perm_middle

/-- The sort gives a permutation of its input. -/
theorem jsSort_perm {α : Type} (compare : α → α → Int) (l : List α) :
    (jsSort compare l).Perm l := by
  unfold jsSort
  refine (List.reverse_perm _).trans ?_
  simpa using foldl_insertFromRight_perm compare l []

theorem foldl_splitStep (now : Nat) (l : List SnapshotDoc) :
    ∀ (current : Option SnapshotDoc) (history : List SnapshotDoc),
      (l.foldl (splitStep now) (current, history)).1 =
          (match current with
           | some x => some x
           | none => l.find? fun r =>
              decide (r.data.status = some "assigned") && assignmentActive now r) ∧
        ((l.foldl (splitStep now) (current, history)).1.toList ++
          (l.foldl (splitStep now) (current, history)).2).Perm
            (current.toList ++ (history ++ l)) := by
  induction l with
  | nil => intro current history; cases current <;> simp
  | cons r rest ih =>
    intro current history
    simp only [List.foldl_cons]
    cases current with
    | some x =>
      have hstep : splitStep now (some x, history) r = (some x, history ++ [r]) := by
        simp [splitStep]
      rw [hstep]
      obtain ⟨h1, h2⟩ := ih (some x) (history ++ [r])
      exact ⟨h1, by simpa using h2⟩
    | none =>
      by_cases hp : r.data.status = some "assigned" ∧ assignmentActive now r = true
      · have hstep : splitStep now (none, history) r = (some r, history) := by
          simp [splitStep, hp.1, hp.2]
        rw [hstep]
        obtain ⟨h1, h2⟩ := ih (some r) history
        refine ⟨by simp [h1, List.find?_cons, hp.1, hp.2], ?_⟩
        refine h2.trans ?_
        simpa using (@List.perm_middle _ r history rest).symm
      · have hstep : splitStep now (none, history) r = (none, history ++ [r]) := by
          simp only [splitStep, and_true]
          rw [if_neg hp]
        rw [hstep]
        obtain ⟨h1, h2⟩ := ih none (history ++ [r])
        have hfalse : (decide (r.data.status = some "assigned") && assignmentActive now r) =
            false := by
          by_cases hs : r.data.status = some "assigned"
          · have ha : assignmentActive now r = false := by
              cases h : assignmentActive now r
              · rfl
              · exact absurd ⟨hs, h⟩ hp
            simp [hs, ha]
          · simp [hs]
        exact ⟨by simp [h1, List.find?_cons, hfalse], by simpa using h2⟩

theorem assignmentActive_iff (now : Nat) (r : SnapshotDoc) :
    assignmentActive now r = true ↔
      ∃ s, r.data.vehicleAssignedAt = some s ∧ 0 < s ∧
        (now : Int) - (s : Int) * 1000 < 600000 := by
  unfold assignmentActive assignedMs
  cases hs : r.data.vehicleAssignedAt with
  | none => simp
  | some s =>
    by_cases h0 : s = 0
    · simp [h0]
    · have h1 : s * 1000 ≠ 0 := by omega
      simp only [h0, h1, if_false, decide_eq_true_eq, Option.some.injEq, exists_eq_left']
      push_cast
      constructor
      · intro h; exact ⟨by omega, h⟩
      · intro h; exact h.2

/-- C28: for every list of assignments and every clock value, the current assignment is the
first one in list order that has status "assigned" and is active, there is at most one, and
the current assignment together with the history is a rearrangement of the list, every
assignment once. An assignment is active when it has an assignment timestamp (of `s > 0`
seconds) with now - s * 1000 < 600000. -/
theorem assignments_partition (now : Nat) (allAssignments : List SnapshotDoc) :
    (splitAssignments now allAssignments).currentAssignment =
        (allAssignments.find? fun r =>
          decide (r.data.status = some "assigned") && assignmentActive now r) ∧
      ((splitAssignments now allAssignments).currentAssignment.toList ++
        (splitAssignments now allAssignments).historyAssignments).Perm allAssignments ∧
      ∀ r, assignmentActive now r = true ↔
        ∃ s, r.data.vehicleAssignedAt = some s ∧ 0 < s ∧
          (now : Int) - (s : Int) * 1000 < 600000 := by
  obtain ⟨h1, h2⟩ := foldl_splitStep now allAssignments none []
  refine ⟨h1, ?_, assignmentActive_iff now⟩
  simp only [splitAssignments]
  refine (List.Perm.append_left _ (jsSort_perm compareHistory _)).trans ?_
  simpa using h2

/-- C29: for a request with an assignment timestamp of `s > 0` seconds and every clock value,
the portal takes the assignment for active, that is now - s * 1000 < 600000, exactly when the
remainingMs of the board for the same request and clock value is greater than 0. -/
theorem views_agree_on_window (now : Nat) (r : SnapshotDoc) (s : Nat)
    (hs : r.data.vehicleAssignedAt = some s) (hpos : 0 < s) :
    (assignmentActive now r = true ↔ (now : Int) - (s : Int) * 1000 < 600000) ∧
      (assignmentActive now r = true ↔
        ∃ ms : Int, (withCountdown now r).remainingMs = some ms ∧ 0 < ms) := by
  have hactive : assignmentActive now r = true ↔ (now : Int) - (s : Int) * 1000 < 600000 := by
    rw [assignmentActive_iff, hs]
    simp only [Option.some.injEq, exists_eq_left']
    exact ⟨fun h => h.2, fun h => ⟨hpos, h⟩⟩
  refine ⟨hactive, ?_⟩
  have h1 : s ≠ 0 := by omega
  have h2 : s * 1000 ≠ 0 := by omega
  have hrem : (withCountdown now r).remainingMs =
      some (max 0 ((s : Int) * 1000 + 600000 - (now : Int))) := by
    simp only [withCountdown, hs, h1, h2, if_false]
    push_cast
    rfl
  rw [hactive, hrem]
  simp only [Option.some.injEq, exists_eq_left']
  rw [lt_max_iff]
  omega

/-- C29, at a request assigned 300 seconds before the clock reading. -/
theorem views_agree_on_window_witness :
    (assignmentActive 1700000300000 acceptedDoc = true ↔
        ((1700000300000 : Nat) : Int) - ((1700000000 : Nat) : Int) * 1000 < 600000) ∧
      (assignmentActive 1700000300000 acceptedDoc = true ↔
        ∃ ms : Int, (withCountdown 1700000300000 acceptedDoc).remainingMs = some ms ∧ 0 < ms) :=
  views_agree_on_window 1700000300000 acceptedDoc 1700000000 rfl (by decide)

/-! ## Driver codes -/

theorem digitChar_toNat : ∀ k, k < 10 → (Nat.digitChar k).toNat - 48 = k := by decide

theorem decodeDigits_toDigitsCore : ∀ (fuel n : Nat) (ds : List Char), n < fuel →
    decodeDigits (Nat.toDigitsCore 10 fuel n ds) 0 = decodeDigits ds n := by
  intro fuel
  induction fuel with
  | zero => intro n ds h; omega
  | succ fuel ih =>
    intro n ds h
    have hd := digitChar_toNat (n % 10) (Nat.mod_lt _ (by decide))
    simp only [Nat.toDigitsCore]
    split_ifs with h0
    · simp only [decodeDigits, List.foldl_cons, hd]
      congr 1
      omega
    · rw [ih (n / 10) _ (by omega)]
      simp only [decodeDigits, List.foldl_cons, hd]
      congr 1
      omega

/-- Two numbers with the same decimal text are equal. -/
theorem toString_nat_inj (a b : Nat)
    (h : toString ((a : Nat) : Int) = toString ((b : Nat) : Int)) : a = b := by
  have ha := decodeDigits_toDigitsCore (a + 1) a [] (by omega)
  have hb := decodeDigits_toDigitsCore (b + 1) b [] (by omega)
  have h0 : Nat.repr a = Nat.repr b := h
  simp only [Nat.repr, Nat.toDigits] at h0
  have h' : Nat.toDigitsCore 10 (a + 1) a [] = Nat.toDigitsCore 10 (b + 1) b [] := by
    have := congrArg String.data h0
    simpa [List.asString] using this
  rw [h'] at ha
  rw [ha] at hb
  simpa [decodeDigits] using hb

theorem findIndex_of_mem {α : Type} (p : α → Bool) :
    ∀ (l : List α) (x : α), x ∈ l → p x = true →
      ∃ (i : Nat) (y : α), findIndex p l = (i : Int) ∧ l[i]? = some y ∧ p y = true := by
  intro l
  induction l with
  | nil => intro x hx; simp at hx
  | cons a rest ih =>
    intro x hx hp
    by_cases ha : p a = true
    · exact ⟨0, a, by simp [findIndex, ha], by simp, ha⟩
    · have hxr : x ∈ rest := by
        rcases List.mem_cons.mp hx with h | h
        · subst h; exact absurd hp ha
        · exact h
      obtain ⟨i, y, hi, hy, hpy⟩ := ih x hxr hp
      refine ⟨i + 1, y, ?_, by simpa using hy, hpy⟩
      have hnot : ¬ ((i : Int) < 0) := by omega
      simp only [findIndex, ha, hi, hnot, if_false]
      push_cast
      rfl

theorem getDriverCodeWith_eq (lower : String → String) (driver : DriverDoc)
    (all : List DriverDoc) :
    getDriverCodeWith lower driver all =
      driverCodeLabel (lower (orStr driver.vehicleType "")) ++
        toString (findIndex (fun d => d.id == driver.id)
          (all.filter fun d =>
            lower (orStr d.vehicleType "") == lower (orStr driver.vehicleType "")) + 1) := by
  simp only [getDriverCodeWith, driverCodeLabel]
  split_ifs <;> rfl

theorem driverCodeLabel_length (type : String) : (driverCodeLabel type).data.length = 3 := by
  unfold driverCodeLabel
  split_ifs <;> decide

theorem driverCodeLabel_inj (a b : String)
    (hknown : a = b ∨ a ∈ ["ambulance", "policevan", "fireengine"] ∨
      b ∈ ["ambulance", "policevan", "fireengine"])
    (h : driverCodeLabel a = driverCodeLabel b) : a = b := by
  rcases hknown with h | h' | h'
  · exact h
  · simp only [List.mem_cons, List.mem_singleton, List.not_mem_nil, or_false] at h'
    unfold driverCodeLabel at h
    rcases h' with rfl | rfl | rfl <;> simp at h <;> split_ifs at h <;> simp_all
  · simp only [List.mem_cons, List.mem_singleton, List.not_mem_nil, or_false] at h'
    unfold driverCodeLabel at h
    rcases h' with rfl | rfl | rfl <;> simp at h <;> split_ifs at h <;> simp_all

/-- C30, as stated: in a roster of two drivers with the vehicle types "Fire Engine" and
"Police Van" both drivers get the code "DRV1". -/
theorem driver_codes_collide :
    getDriverCode (registeredDriver "d1" "Fire Engine")
        [registeredDriver "d1" "Fire Engine", registeredDriver "d2" "Police Van"] = "DRV1" ∧
      getDriverCode (registeredDriver "d2" "Police Van")
        [registeredDriver "d1" "Fire Engine", registeredDriver "d2" "Police Van"] = "DRV1" ∧
      ([registeredDriver "d1" "Fire Engine", registeredDriver "d2" "Police Van"].map
        fun d => d.id).Nodup ∧
      registeredDriver "d1" "Fire Engine" ≠ registeredDriver "d2" "Police Van" := by
  decide

/-- C30, amended: for every roster whose ids are pairwise distinct, and whatever the
lower-casing function is, `getDriverCode` gives two distinct drivers of the roster distinct
codes when their lower-cased vehicle types are equal or at least one of the two types is
ambulance, policevan or fireengine. -/
theorem driver_codes_distinct (lower : String → String) (all : List DriverDoc)
    (hids : (all.map fun d => d.id).Nodup) (d₁ d₂ : DriverDoc) (h₁ : d₁ ∈ all) (h₂ : d₂ ∈ all)
    (hne : d₁ ≠ d₂)
    (htypes : lower (orStr d₁.vehicleType "") = lower (orStr d₂.vehicleType "") ∨
      lower (orStr d₁.vehicleType "") ∈ ["ambulance", "policevan", "fireengine"] ∨
      lower (orStr d₂.vehicleType "") ∈ ["ambulance", "policevan", "fireengine"]) :
    getDriverCodeWith lower d₁ all ≠ getDriverCodeWith lower d₂ all := by
  intro hcode
  have hid : d₁.id ≠ d₂.id := fun h => hne (List.inj_on_of_nodup_map hids h₁ h₂ h)
  rw [getDriverCodeWith_eq, getDriverCodeWith_eq] at hcode
  have hdata := congrArg String.data hcode
  simp only [String.data_append] at hdata
  obtain ⟨hlabel, hnum⟩ := List.append_inj hdata
    ((driverCodeLabel_length _).trans (driverCodeLabel_length _).symm)
  have htype : lower (orStr d₁.vehicleType "") = lower (orStr d₂.vehicleType "") :=
    driverCodeLabel_inj _ _ htypes (String.ext hlabel)
  rw [htype] at hnum
  have hg₁ : d₁ ∈ all.filter fun d =>
      lower (orStr d.vehicleType "") == lower (orStr d₂.vehicleType "") :=
    List.mem_filter.mpr ⟨h₁, by simp [htype]⟩
  have hg₂ : d₂ ∈ all.filter fun d =>
      lower (orStr d.vehicleType "") == lower (orStr d₂.vehicleType "") :=
    List.mem_filter.mpr ⟨h₂, by simp⟩
  obtain ⟨i, y₁, hi, hy₁, hp₁⟩ := findIndex_of_mem (fun d => d.id == d₁.id) _ d₁ hg₁ (by simp)
  obtain ⟨j, y₂, hj, hy₂, hp₂⟩ := findIndex_of_mem (fun d => d.id == d₂.id) _ d₂ hg₂ (by simp)
  rw [hi, hj] at hnum
  have hij : i + 1 = j + 1 := toString_nat_inj (i + 1) (j + 1) (by
    have := String.ext hnum
    push_cast
    exact this)
  have hij' : i = j := by omega
  subst hij'
  rw [hy₁] at hy₂
  cases hy₂
  simp only [beq_iff_eq] at hp₁ hp₂
  exact hid (hp₁.symm.trans hp₂)

/-- C30, amended, at a roster with two ambulance drivers and a fire-engine driver. -/
theorem driver_codes_distinct_witness :
    getDriverCode (registeredDriver "d1" "Ambulance")
        [registeredDriver "d1" "Ambulance", registeredDriver "d2" "ambulance",
          registeredDriver "d3" "fireengine"] ≠
      getDriverCode (registeredDriver "d2" "ambulance")
        [registeredDriver "d1" "Ambulance", registeredDriver "d2" "ambulance",
          registeredDriver "d3" "fireengine"] :=
  driver_codes_distinct toLowerCase
    [registeredDriver "d1" "Ambulance", registeredDriver "d2" "ambulance",
      registeredDriver "d3" "fireengine"] (by decide) (registeredDriver "d1" "Ambulance")
    (registeredDriver "d2" "ambulance") (by decide) (by decide) (by decide)
    (Or.inl (by decide))

end Safetyres
